import Mathlib

/-!
Shallow embedding of the scheduling / EVM / conflict-resolution /
baseline engine of the Gamma project-management backend.

Modelling conventions used throughout:
* Python `date` values are modelled as day ordinals (`Int`); `d2 - d1` models
  `(d2 - d1).days` and `d + n` models `d + timedelta(days=n)`.  In the
  concrete scenarios the date `2024-01-k` is encoded as the ordinal `k`.
* Python `Decimal` money values are modelled as `ℚ`; `quantize(Decimal('0.01'),
  ROUND_HALF_UP)` is modelled by `quantize2` (round half away from zero to
  cents).  `Decimal` division carries 28 significant digits; the claims under
  study only involve exact quotients or identities between the returned
  fields, where the two semantics agree.
* Optional columns are `Option _`; Python truthiness of a numeric optional
  (`if x:`) is "present and nonzero".
* Free-text presentation fields (conflict descriptions, resolution summary)
  are elided from the result records; they are never consulted by any claim.
* Fallible code paths (`raise` caught by a surrounding `try`) are modelled
  with `Except String`, the error string being Python's exception message.
-/

namespace PM

/-- Round half away from zero to two decimal places: the model of
`Decimal.quantize(Decimal('0.01'), rounding=ROUND_HALF_UP)`. -/
def quantize2 (x : ℚ) : ℚ :=
  if x ≥ 0 then ((⌊x * 100 + 1 / 2⌋ : ℤ) : ℚ) / 100
  else -(((⌊-x * 100 + 1 / 2⌋ : ℤ) : ℚ) / 100)

/-- Truncation toward zero, the model of Python `int(...)` on a number. -/
def qTrunc (q : ℚ) : Int := if q ≥ 0 then ⌊q⌋ else ⌈q⌉

/-! ## Earned value service (`earned_value_service.py`)

Task fields consumed by the EVM computations. -/

/-- Task data used by `calculate_project_evm` (`budgeted_cost`,
`progress_percentage`, `actual_cost`). -/
structure EvmTask where
  budgeted_cost : Option ℚ
  progress_percentage : Int
  actual_cost : Option ℚ
deriving DecidableEq

/-- The `EarnedValueMetrics` schema (`schemas/task.py`); `project_id` and
`calculated_at` are elided (identity/timestamp only). -/
structure EarnedValueMetrics where
  planned_value : ℚ
  earned_value : ℚ
  actual_cost : ℚ
  budget_at_completion : ℚ
  schedule_variance : ℚ
  cost_variance : ℚ
  schedule_performance_index : ℚ
  cost_performance_index : ℚ
  estimate_at_completion : ℚ
  estimate_to_complete : ℚ
  variance_at_completion : ℚ
  to_complete_performance_index : ℚ
  percent_complete : ℚ
deriving DecidableEq

/-- `_calculate_planned_value`: time-proportional share of the budget.
The `tasks` argument is accepted and ignored, as in the source.  Python
routes `days_elapsed/total_days` through a binary float and back through
`Decimal(str(...))`; the exact rational is used here (the claims under
study never depend on the low-order digits of PV). -/
def calculatePlannedValue (tasks : List EvmTask) (projectBudget : ℚ)
    (projectStart projectEnd today : Int) : ℚ :=
  let _ := tasks
  let totalDays : Int := projectEnd - projectStart
  if totalDays ≤ 0 then 0
  else
    let daysElapsed : Int := today - projectStart
    if daysElapsed ≤ 0 then 0
    else quantize2 (projectBudget * min ((daysElapsed : ℚ) / (totalDays : ℚ)) 1)

/-- `_calculate_earned_value`: budget-weighted progress.  `task.budgeted_cost
or Decimal('0')` is `Option.getD 0` (a stored 0 is falsy and also yields 0).
The `project_budget` argument is accepted and ignored, as in the source. -/
def calculateEarnedValue (tasks : List EvmTask) (projectBudget : ℚ) : ℚ :=
  let _ := projectBudget
  let totalBudgeted : ℚ := (tasks.map (fun t => t.budgeted_cost.getD 0)).sum
  if totalBudgeted ≤ 0 then 0
  else
    quantize2 ((tasks.map (fun t =>
      let taskBudget := t.budgeted_cost.getD 0
      if taskBudget > 0 then taskBudget * ((t.progress_percentage : ℚ) / 100)
      else 0)).sum)

/-- `_calculate_actual_cost`: sum of actual costs. -/
def calculateActualCost (tasks : List EvmTask) : ℚ :=
  quantize2 ((tasks.map (fun t => t.actual_cost.getD 0)).sum)

/-- `_calculate_eac`: estimate at completion.  The `cpi ≤ 0` guard is tested
first, then `remaining_work ≤ 0` (project complete), then the division. -/
def calculateEac (actualCost earnedValue budgetAtCompletion cpi : ℚ) : ℚ :=
  if cpi ≤ 0 then budgetAtCompletion
  else
    let remainingWork := budgetAtCompletion - earnedValue
    if remainingWork ≤ 0 then actualCost
    else quantize2 (actualCost + remainingWork / cpi)

/-- `calculate_project_evm` (lines 47-92): the full metric computation.  The
body cannot raise, so the `except` branch of the source is unreachable. -/
def calculateProjectEvm (today : Int) (tasks : List EvmTask)
    (projectBudget : ℚ) (projectStart projectEnd : Int) : EarnedValueMetrics :=
  let pv := calculatePlannedValue tasks projectBudget projectStart projectEnd today
  let ev := calculateEarnedValue tasks projectBudget
  let ac := calculateActualCost tasks
  let sv := ev - pv
  let cv := ev - ac
  let spi := if pv > 0 then ev / pv else 0
  let cpi := if ac > 0 then ev / ac else 0
  let eac := calculateEac ac ev projectBudget cpi
  let etc := eac - ac
  let vac := projectBudget - eac
  let remainingBudget := projectBudget - ac
  let tcpi := if eac - ev > 0 then remainingBudget / (eac - ev) else 0
  let bac := projectBudget
  let pc := if bac > 0 then ev / bac * 100 else 0
  { planned_value := pv
    earned_value := ev
    actual_cost := ac
    budget_at_completion := bac
    schedule_variance := sv
    cost_variance := cv
    schedule_performance_index := spi
    cost_performance_index := cpi
    estimate_at_completion := eac
    estimate_to_complete := etc
    variance_at_completion := vac
    to_complete_performance_index := tcpi
    percent_complete := pc }

/-- `_calculate_success_probability` (lines 429-464): weighted bracket sum
over SPI, CPI and percent-complete. -/
def calculateSuccessProbability (evm : EarnedValueMetrics) : ℚ :=
  let s1 : ℚ :=
    if evm.schedule_performance_index ≥ 1 then 40
    else if evm.schedule_performance_index ≥ 9 / 10 then 30
    else if evm.schedule_performance_index ≥ 8 / 10 then 20
    else 10
  let s2 : ℚ :=
    if evm.cost_performance_index ≥ 1 then 40
    else if evm.cost_performance_index ≥ 9 / 10 then 30
    else if evm.cost_performance_index ≥ 8 / 10 then 20
    else 10
  let s3 : ℚ :=
    if evm.percent_complete ≥ 75 then 20
    else if evm.percent_complete ≥ 50 then 15
    else if evm.percent_complete ≥ 25 then 10
    else 5
  s1 + s2 + s3

/-! ## Dependency validation service (`dependency_validation_service.py`) -/

/-- Task fields consumed by `validate_project_dependencies`. -/
structure VTask where
  id : String
  name : String
  planned_start_date : Option Int
  planned_end_date : Option Int
deriving DecidableEq

/-- The `TaskDependency` rows consumed by the validator. -/
structure TaskDependencyRec where
  id : String
  predecessor_id : String
  successor_id : String
deriving DecidableEq

/-- The `DependencyGraph` schema. -/
structure DependencyGraphRec where
  nodes : List String
  edges : List (String × String)
  cycles : List (List String)
  longest_path : List String
deriving DecidableEq

/-- One entry of `invalid_dependencies`. -/
structure InvalidDependency where
  dependency_id : String
  predecessor_id : String
  successor_id : String
  issue : String
deriving DecidableEq

/-- The `DependencyValidationResult` schema. -/
structure DependencyValidationResult where
  is_valid : Bool
  errors : List String
  warnings : List String
  circular_references : List (List String)
  orphaned_tasks : List String
  invalid_dependencies : List InvalidDependency
deriving DecidableEq

/-- Adjacency list as an insertion-ordered association list; a lookup of a
missing key yields `[]`, the `defaultdict(list)` default. -/
def adjGet (adj : List (String × List String)) (node : String) : List String :=
  match adj.find? (fun p => p.1 == node) with
  | some p => p.2
  | none => []

/-- Whether `node` is a key of the adjacency dict (a lookup of a non-key
inserts it, which is what the `RuntimeError` model below tracks). -/
def adjHasKey (adj : List (String × List String)) (node : String) : Bool :=
  (adj.find? (fun p => p.1 == node)).isSome

/-- `adj_list[pred_id].append(succ_id)` on a `defaultdict(list)`: append to
the existing bucket, or create a new key at the end (insertion order). -/
def adjAppend (adj : List (String × List String)) (pred succ : String) :
    List (String × List String) :=
  match adj with
  | [] => [(pred, [succ])]
  | (k, l) :: rest =>
      if k == pred then (k, l ++ [succ]) :: rest
      else (k, l) :: adjAppend rest pred succ

/-- State threaded through the DFS of `_detect_cycles_from_adj_list`:
`visited` and `recStack` are the two global sets, `cycles` the accumulator,
and `accessedMissing` records whether `adj_list[x]` was ever read for a
non-key `x` (a `defaultdict` insertion, which makes the key iteration of
the outer loop raise `RuntimeError: dictionary changed size during
iteration`). -/
structure DfsState where
  visited : List String
  recStack : List String
  cycles : List (List String)
  accessedMissing : Bool

/-- `path[path.index(neighbor):] + [neighbor]`: the reported cycle. -/
def cycleFrom (path : List String) (neighbor : String) : List String :=
  path.drop (path.indexOf neighbor) ++ [neighbor]

/-- The `for neighbor in adj_list[node]` loop inside `dfs`.  `visitF` is the
recursive `dfs` call for the next depth. -/
def dfsNeighbors
    (visitF : String → List String → DfsState → DfsState × Bool) :
    List String → List String → DfsState → DfsState × Bool
  | [], _, st => (st, false)
  | neighbor :: rest, path, st =>
      if neighbor ∈ st.visited then
        if neighbor ∈ st.recStack then
          ({ st with cycles := st.cycles ++ [cycleFrom path neighbor] }, true)
        else dfsNeighbors visitF rest path st
      else
        match visitF neighbor path st with
        | (st, true) => (st, true)
        | (st, false) => dfsNeighbors visitF rest path st

/-- The inner `dfs(node, path)` of `_detect_cycles_from_adj_list`.  Returns
the updated state and the boolean returned by the Python function.  `path`
is the caller's path list; on a `False` return the appended node is popped
and removed from `rec_stack`, on a `True` return both are left in place.
The fuel only bounds the recursion depth, which Python bounds by its
recursion limit; callers supply fuel exceeding the number of reachable
nodes, so exhaustion is unreachable. -/
def dfsVisit (adj : List (String × List String)) :
    Nat → String → List String → DfsState → DfsState × Bool
  | 0, _, _, st => (st, false)
  | fuel + 1, node, path, st =>
      let st := { st with visited := node :: st.visited,
                          recStack := node :: st.recStack,
                          accessedMissing :=
                            st.accessedMissing || !adjHasKey adj node }
      let path := path ++ [node]
      match dfsNeighbors (fun n p s => dfsVisit adj fuel n p s)
          (adjGet adj node) path st with
      | (st, true) => (st, true)
      | (st, false) =>
          ({ st with recStack := st.recStack.erase node }, false)

/-- Fuel that strictly dominates the number of nodes the DFS can visit. -/
def dfsFuel (adj : List (String × List String)) : Nat :=
  adj.length + (adj.map (fun p => p.2.length)).sum + 1

/-- The outer `for node in adj_list` loop of `_detect_cycles_from_adj_list`. -/
def dfsRoots (adj : List (String × List String)) :
    List String → DfsState → DfsState
  | [], st => st
  | node :: rest, st =>
      if node ∈ st.visited then dfsRoots adj rest st
      else dfsRoots adj rest (dfsVisit adj (dfsFuel adj) node [] st).1

/-- `_detect_cycles_from_adj_list` (lines 262-292).  If the DFS ever reads a
non-key (inserting it into the `defaultdict` being iterated), the whole call
raises `RuntimeError`; otherwise the accumulated cycles are returned. -/
def detectCyclesFromAdjList (adj : List (String × List String)) :
    Except String (List (List String)) :=
  let st := dfsRoots adj (adj.map (·.1)) ⟨[], [], [], false⟩
  if st.accessedMissing then
    .error "dictionary changed size during iteration"
  else .ok st.cycles

/-- Python's default recursion limit, which bounds the depth of
`calculate_path_length`; any cycle reachable from the queried nodes exceeds
every finite limit, raising `RecursionError`. -/
def recursionLimit : Nat := 1000

/-- The `for successor in adj_list[node]` loop of `calculate_path_length`,
folding `max_length`; `recurse` is the recursive call at the next depth. -/
def calcPathLengthList
    (recurse : String → List (String × Int) →
      Except String (Int × List (String × Int))) :
    List String → Int → List (String × Int) →
    Except String (Int × List (String × Int))
  | [], maxLength, memo => .ok (maxLength, memo)
  | succ :: rest, maxLength, memo => do
      let (len, memo) ← recurse succ memo
      calcPathLengthList recurse rest (max maxLength (len + 1)) memo

/-- The memoized `calculate_path_length(node, memo)` inner function of
`_find_longest_path`.  Plain-dict lookups on `adj_list` are modelled by
`adjGet` (the `defaultdict` insertions it performs store `[]`, the lookup
default, and no dict iteration is live at this point, so they are
unobservable).  The fuel models Python's recursion limit. -/
def calcPathLength (adj : List (String × List String)) :
    Nat → String → List (String × Int) → Except String (Int × List (String × Int))
  | 0, _, _ => .error "maximum recursion depth exceeded"
  | fuel + 1, node, memo =>
      match memo.find? (fun p => p.1 == node) with
      | some p => .ok (p.2, memo)
      | none =>
          if adjGet adj node = [] then .ok (1, memo)
          else do
            let (maxLength, memo) ←
              calcPathLengthList (fun n m => calcPathLength adj fuel n m)
                (adjGet adj node) 1 memo
            .ok (maxLength, (node, maxLength) :: memo)

/-- `max(candidates, key=lambda x: calculate_path_length(x, memo))`: first
element with the maximal key; key evaluation can raise. -/
def argmaxByPathLength (adj : List (String × List String))
    (memo : List (String × Int)) :
    List String → String → Int → Except String (String × List (String × Int))
  | [], best, _ => .ok (best, memo)
  | c :: rest, best, bestKey => do
      let (k, memo) ← calcPathLength adj recursionLimit c memo
      if k > bestKey then argmaxByPathLength adj memo rest c k
      else argmaxByPathLength adj memo rest best bestKey

/-- The `while adj_list[current]` reconstruction loop of
`_find_longest_path`.  The fuel exhaustion branch is unreachable on inputs
whose length phase succeeded (any cycle reachable from `start_node` already
raised there); it mirrors Python's unbounded loop on those inputs. -/
def reconstructPath (adj : List (String × List String)) :
    Nat → String → List String → List (String × Int) →
    Except String (List String)
  | 0, _, path, _ => .ok path
  | fuel + 1, current, path, memo =>
      match adjGet adj current with
      | [] => .ok path
      | c :: rest => do
          let (k, memo) ← calcPathLength adj recursionLimit c memo
          let (next, memo) ← argmaxByPathLength adj memo rest c k
          reconstructPath adj fuel next (path ++ [next]) memo

/-- The `for node in nodes` loop of `_find_longest_path`, tracking the best
starting node. -/
def longestPathScan (adj : List (String × List String)) :
    List String → Int → Option String → List (String × Int) →
    Except String (Option String × List (String × Int))
  | [], maxLength, startNode, memo =>
      let _ := maxLength
      .ok (startNode, memo)
  | node :: rest, maxLength, startNode, memo => do
      let (len, memo) ← calcPathLength adj recursionLimit node memo
      if len > maxLength then longestPathScan adj rest len (some node) memo
      else longestPathScan adj rest maxLength startNode memo

/-- `_find_longest_path` (lines 326-367). -/
def findLongestPath (adj : List (String × List String)) (nodes : List String) :
    Except String (List String) := do
  let (startNode, memo) ← longestPathScan adj nodes 0 none []
  match startNode with
  | none => .ok []
  | some start => reconstructPath adj recursionLimit start [start] memo

/-- The adjacency list built by `_build_dependency_graph` from the
dependency rows (keys in first-occurrence order of predecessor ids). -/
def buildAdjList (dependencies : List TaskDependencyRec) :
    List (String × List String) :=
  dependencies.foldl (fun adj d => adjAppend adj d.predecessor_id d.successor_id) []

/-- `_build_dependency_graph` (lines 211-240); the embedded cycle detection
and longest-path search can raise, which the caller's `except` catches. -/
def buildDependencyGraph (tasks : List VTask)
    (dependencies : List TaskDependencyRec) :
    Except String DependencyGraphRec := do
  let nodes := tasks.map (·.id)
  let edges := dependencies.map (fun d => (d.predecessor_id, d.successor_id))
  let adjList := buildAdjList dependencies
  let cycles ← detectCyclesFromAdjList adjList
  let longestPath ← findLongestPath adjList nodes
  .ok { nodes := nodes, edges := edges, cycles := cycles,
        longest_path := longestPath }

/-- `_detect_cycles` (lines 256-260): runs the DFS on an adjacency list that
maps every node of the graph to `[]` — the edges are dropped, so no cycle
can ever be found. -/
def detectCycles (graph : DependencyGraphRec) :
    Except String (List (List String)) :=
  detectCyclesFromAdjList (graph.nodes.map (fun node => (node, ([] : List String))))

/-- The duplicate-dependency scan (lines 106-113): emits one warning per
repetition of a (predecessor, successor) pair. -/
def duplicateWarnings (dependencies : List TaskDependencyRec) : List String :=
  (dependencies.foldl
    (fun (acc : List (String × String) × List String) d =>
      let pair := (d.predecessor_id, d.successor_id)
      if pair ∈ acc.1 then
        (acc.1,
          acc.2 ++ ["Duplicate dependency found: " ++ d.predecessor_id ++
            " -> " ++ d.successor_id])
      else (pair :: acc.1, acc.2))
    ([], [])).2

/-- `_check_logical_issues` (lines 369-396): predecessor-count warnings then
date-inconsistency warnings. -/
def checkLogicalIssues (tasks : List VTask)
    (dependencies : List TaskDependencyRec) : List String :=
  let counts : List (String × Nat) :=
    dependencies.foldl
      (fun acc d =>
        match acc.find? (fun p => p.1 == d.successor_id) with
        | some _ =>
            acc.map (fun p =>
              if p.1 == d.successor_id then (p.1, p.2 + 1) else p)
        | none => acc ++ [(d.successor_id, 1)])
      []
  let countWarnings := counts.foldl
    (fun acc p =>
      if p.2 > 10 then
        match tasks.find? (fun t => t.id == p.1) with
        | some task =>
            acc ++ ["Task '" ++ task.name ++ "' has " ++ toString p.2 ++
              " predecessors - consider simplifying"]
        | none => acc
      else acc)
    []
  let dateWarnings := dependencies.foldl
    (fun acc d =>
      match tasks.find? (fun t => t.id == d.predecessor_id),
            tasks.find? (fun t => t.id == d.successor_id) with
      | some predTask, some succTask =>
          match predTask.planned_end_date, succTask.planned_start_date with
          | some e, some s =>
              if e > s then
                acc ++ ["Date inconsistency: '" ++ predTask.name ++
                  "' ends after '" ++ succTask.name ++ "' starts"]
              else acc
          | _, _ => acc
      | _, _ => acc)
    []
  countWarnings ++ dateWarnings

/-- The `try` body of `validate_project_dependencies` (lines 38-126). -/
def validateProjectDependenciesBody (tasks : List VTask)
    (dependencies : List TaskDependencyRec) :
    Except String DependencyValidationResult := do
  let graph ← buildDependencyGraph tasks dependencies
  let cycles ← detectCycles graph
  let cycleValid := cycles.isEmpty
  let cycleErrors := cycles.map
    (fun cycle => "Circular dependency detected: " ++
      String.intercalate " -> " cycle)
  let taskIds := tasks.map (·.id)
  let orphanScan := dependencies.foldl
    (fun (acc : Bool × List InvalidDependency × List String) d =>
      let acc :=
        if d.predecessor_id ∈ taskIds then acc
        else
          (false,
            acc.2.1 ++ [⟨d.id, d.predecessor_id, d.successor_id,
              "predecessor_task_not_found"⟩],
            acc.2.2 ++ ["Dependency references non-existent predecessor task: " ++
              d.predecessor_id])
      if d.successor_id ∈ taskIds then acc
      else
        (false,
          acc.2.1 ++ [⟨d.id, d.predecessor_id, d.successor_id,
            "successor_task_not_found"⟩],
          acc.2.2 ++ ["Dependency references non-existent successor task: " ++
            d.successor_id]))
    (cycleValid, [], [])
  let selfScan := dependencies.foldl
    (fun (acc : Bool × List InvalidDependency × List String) d =>
      if d.predecessor_id == d.successor_id then
        (false,
          acc.2.1 ++ [⟨d.id, d.predecessor_id, d.successor_id,
            "self_dependency"⟩],
          acc.2.2 ++ ["Task cannot depend on itself: " ++ d.predecessor_id])
      else acc)
    orphanScan
  .ok { is_valid := selfScan.1
        errors := cycleErrors ++ selfScan.2.2
        warnings := duplicateWarnings dependencies ++
          checkLogicalIssues tasks dependencies
        circular_references := cycles
        orphaned_tasks := []
        invalid_dependencies := selfScan.2.1 }

/-- `validate_project_dependencies` (lines 24-137): the `try` body, with the
blanket `except` returning the failure result. -/
def validateProjectDependencies (tasks : List VTask)
    (dependencies : List TaskDependencyRec) : DependencyValidationResult :=
  match validateProjectDependenciesBody tasks dependencies with
  | .ok r => r
  | .error msg =>
      { is_valid := false
        errors := ["Validation failed: " ++ msg]
        warnings := []
        circular_references := []
        orphaned_tasks := []
        invalid_dependencies := [] }

/-! ## Advanced scheduling service (`scheduling_service.py`) -/

/-- Task fields consumed by the scheduling service.  Both planned dates are
required: `_fallback_cpm_calculation` and the optimizer dereference
`task.planned_end_date - task.planned_start_date` unconditionally (a task
missing either would raise). -/
structure STask where
  id : String
  name : String
  planned_start_date : Int
  planned_end_date : Int
  budgeted_cost : Option ℚ
deriving DecidableEq

/-- A `TaskDependency` row as consumed by the scheduler. -/
structure SDep where
  predecessor_id : String
  successor_id : String
  lag_days : Int
deriving DecidableEq

/-- The `TaskSchedule` schema. -/
structure TaskSchedule where
  task_id : String
  earliest_start : Int
  earliest_finish : Int
  latest_start : Int
  latest_finish : Int
  slack : Int
  is_critical : Bool
  duration : Int
deriving DecidableEq

/-- The `CPMResult` schema (`bottlenecks` elided: the fallback always
returns `[]` there). -/
structure CPMResult where
  critical_path : List String
  total_duration : Int
  task_schedules : List TaskSchedule
deriving DecidableEq

/-- `max(1, (planned_end - planned_start).days)`. -/
def sDuration (t : STask) : Int :=
  max 1 (t.planned_end_date - t.planned_start_date)

/-- `_fallback_cpm_calculation` (lines 239-289): basic forward pass.  Every
task is marked critical with zero slack, and `total_duration` is the
maximum of the per-schedule `earliest_finish - earliest_start` spans. -/
def fallbackCpmCalculation (tasks : List STask) (dependencies : List SDep) :
    CPMResult :=
  let schedules := tasks.map (fun task =>
    let predDeps := dependencies.filter (fun d => d.successor_id == task.id)
    let predTasks := predDeps.filterMap
      (fun d => tasks.find? (fun t => t.id == d.predecessor_id))
    let earliestStart : Int :=
      match predTasks with
      | [] => task.planned_start_date
      | p :: ps =>
          (ps.foldl (fun m t => max m t.planned_end_date) p.planned_end_date) + 1
    let earliestFinish := earliestStart + sDuration task
    { task_id := task.id
      earliest_start := earliestStart
      earliest_finish := earliestFinish
      latest_start := earliestStart
      latest_finish := earliestFinish
      slack := 0
      is_critical := true
      duration := earliestFinish - earliestStart })
  let totalDuration : Int :=
    match schedules.map (fun s => s.earliest_finish - s.earliest_start) with
    | [] => 0
    | d :: ds => ds.foldl max d
  { critical_path := schedules.map (·.task_id)
    total_duration := totalDuration
    task_schedules := schedules }

/-- A `TaskConstraint` (schema `TaskConstraint` with its `parameters` dict
flattened into the keys the service reads: `date`, `max_days`,
`resource_type`, `max_units`). -/
structure TaskConstraint where
  constraint_type : String
  task_id : Option String
  param_date : Option Int
  param_max_days : Option Int
  param_resource_type : Option String
  param_max_units : Option Int
deriving DecidableEq

/-- One entry of `optimized_tasks` (the dict built at lines 581-592). -/
structure OptimizedTask where
  task_id : String
  task_name : String
  original_start : Int
  original_end : Int
  optimized_start : Int
  optimized_end : Int
  start_delay : Int
  end_delay : Int
deriving DecidableEq

/-- The `SchedulingOptimizationResult` schema. -/
structure SchedulingOptimizationResult where
  optimized_tasks : List OptimizedTask
  objective_value : ℚ
  optimization_goal : String
  constraints_applied : Nat
  solution_found : Bool
deriving DecidableEq

/-- Lower bound on a task's start variable: its domain floor 0 raised by
every applicable `start_after` constraint (`days_from_base` is measured
from `date.today()`). -/
def startLowerBound (today : Int) (constraints : List TaskConstraint)
    (t : STask) : Int :=
  constraints.foldl
    (fun lb c =>
      if c.constraint_type == "start_after" && c.task_id == some t.id then
        match c.param_date with
        | some d => max lb (d - today)
        | none => lb
      else lb)
    0

/-- Upper bound on a task's start variable: its domain ceiling 365 lowered
by every applicable `finish_before` constraint (`end ≤ days_from_base`
with `end = start + duration`). -/
def startUpperBound (today : Int) (constraints : List TaskConstraint)
    (t : STask) : Int :=
  constraints.foldl
    (fun ub c =>
      if c.constraint_type == "finish_before" && c.task_id == some t.id then
        match c.param_date with
        | some d => min ub (d - today - sDuration t)
        | none => ub
      else ub)
    365

/-- Whether every `max_duration` constraint on the task is satisfiable
(`end - start` equals the fixed duration; `max_days` defaults to 30). -/
def maxDurationOk (constraints : List TaskConstraint) (t : STask) : Bool :=
  constraints.all (fun c =>
    if c.constraint_type == "max_duration" && c.task_id == some t.id then
      sDuration t ≤ c.param_max_days.getD 30
    else true)

/-- Whether a task's interval variable has a nonempty domain under the
constraints.  `resource_limit` constraints never restrict anything: the
`Task` model defines no `required_resources` attribute, so
`getattr(task, 'required_resources', {})` is always `{}` and no cumulative
constraint is posted; the tasks therefore only interact with their own
per-variable bounds. -/
def taskFeasible (today : Int) (constraints : List TaskConstraint)
    (t : STask) : Bool :=
  startLowerBound today constraints t ≤ startUpperBound today constraints t &&
    maxDurationOk constraints t

/-- The first solution found by `CHOOSE_FIRST_UNBOUND` / `ASSIGN_MIN_VALUE`
search: each start variable takes its minimal consistent value (the tasks
are mutually unconstrained, see `taskFeasible`). -/
def minStart (today : Int) (constraints : List TaskConstraint)
    (t : STask) : Int :=
  startLowerBound today constraints t

/-- `optimize_schedule_with_constraints` (lines 491-612).  An empty task
list raises inside the extraction (`min()` of an empty sequence), landing
in the blanket `except` handler, which returns the failure result with
`constraints_applied = 0`.  When the solver proves the model infeasible,
`NextSolution` is false: nothing is extracted and the result carries an
empty `optimized_tasks` with `solution_found = False` (there is no fallback
to the CPM schedule and no `approximate` tag anywhere in the function). -/
def optimizeScheduleWithConstraints (today : Int) (tasks : List STask)
    (constraints : List TaskConstraint) (goal : String) :
    SchedulingOptimizationResult :=
  if tasks.isEmpty then
    { optimized_tasks := []
      objective_value := 0
      optimization_goal := goal
      constraints_applied := 0
      solution_found := false }
  else if tasks.all (taskFeasible today constraints) then
    let baseDate : Int :=
      match tasks.map (·.planned_start_date) with
      | [] => 0
      | d :: ds => ds.foldl min d
    let optimized := tasks.map (fun t =>
      let startDay := minStart today constraints t
      let endDay := startDay + sDuration t
      { task_id := t.id
        task_name := t.name
        original_start := t.planned_start_date
        original_end := t.planned_end_date
        optimized_start := baseDate + startDay
        optimized_end := baseDate + endDay
        start_delay := baseDate + startDay - t.planned_start_date
        end_delay := baseDate + endDay - t.planned_end_date })
    let objective : ℚ :=
      if goal == "minimize_duration" then
        match tasks.map (fun t => minStart today constraints t + sDuration t) with
        | [] => 0
        | e :: es => ((es.foldl max e : Int) : ℚ)
      else if goal == "minimize_cost" then
        (tasks.map (fun t => t.budgeted_cost.getD 0)).sum
      else 0
    { optimized_tasks := optimized
      objective_value := objective
      optimization_goal := goal
      constraints_applied := constraints.length
      solution_found := optimized.length > 0 }
  else
    { optimized_tasks := []
      objective_value := 0
      optimization_goal := goal
      constraints_applied := constraints.length
      solution_found := false }

/-! ## Conflict resolution service (`conflict_resolution_service.py`) -/

/-- Task fields consumed by the conflict service.  `project_end_date`
models `task.project.end_date`. -/
structure CTask where
  id : String
  name : String
  assigned_to : Option String
  planned_start_date : Option Int
  planned_end_date : Option Int
  planned_duration_days : Option Int
  estimated_hours : Option ℚ
  predecessor_tasks : List String
  project_end_date : Option Int
deriving DecidableEq

/-- The `SchedulingConflict` schema (`description` and
`suggested_resolution`, pure presentation strings, elided). -/
structure SchedulingConflict where
  conflict_type : String
  task_ids : List String
  severity : String
deriving DecidableEq

/-- The `changes` dict of an applied resolution (union of the keys used by
the three resolution kinds). -/
structure ResolutionChanges where
  planned_start_date : Option Int
  planned_end_date : Option Int
  delay_days : Option Int
  planned_duration_days : Option Int
  old_duration : Option Int
deriving DecidableEq

/-- An applied-resolution record (`description` elided). -/
structure Resolution where
  conflict_type : String
  resolution_type : String
  affected_tasks : List String
  changes : ResolutionChanges
deriving DecidableEq

/-- The `ConflictResolutionResult` schema (`resolution_summary` elided). -/
structure ConflictResolutionResult where
  conflicts_detected : Nat
  conflicts_resolved : Nat
  unresolved_conflicts : List SchedulingConflict
  applied_resolutions : List Resolution
deriving DecidableEq

/-- The task store standing for the database session: resolution functions
look tasks up by id (`query(Task).filter(Task.id == x).first()`) and commit
field updates back. -/
abbrev CStore := List CTask

/-- `db_session.query(Task).filter(Task.id == tid).first()`. -/
def storeGet (s : CStore) (tid : String) : Option CTask :=
  List.find? (fun t => t.id == tid) s

/-- Committing an updated task: every row with the matching id is replaced
(ids are unique keys in the database, so at most one row matches). -/
def storeSet (s : CStore) (tid : String) (t' : CTask) : CStore :=
  List.map (fun t => if t.id == tid then t' else t) s

/-- `resource_tasks` grouping of `_detect_date_conflicts` (lines 113-120):
insertion-ordered buckets keyed by assignee, filled in task order.  The
guard is Python truthiness of `assigned_to` and both planned dates. -/
def addToGroups (groups : List (String × List CTask)) (r : String)
    (t : CTask) : List (String × List CTask) :=
  match groups with
  | [] => [(r, [t])]
  | (k, l) :: rest =>
      if k == r then (k, l ++ [t]) :: rest
      else (k, l) :: addToGroups rest r t

/-- Builds the assignee buckets from the task list. -/
def buildResourceGroups : List CTask → List (String × List CTask) → List (String × List CTask)
  | [], groups => groups
  | t :: ts, groups =>
      match t.assigned_to, t.planned_start_date, t.planned_end_date with
      | some r, some _, some _ => buildResourceGroups ts (addToGroups groups r t)
      | _, _, _ => buildResourceGroups ts groups

/-- Stable insertion of a task into a list already sorted by start date:
existing elements with a key less than or equal to the new one stay in
front of it. -/
def insertByStart (t : CTask) : List CTask → List CTask
  | [] => [t]
  | u :: us =>
      if u.planned_start_date.getD 0 ≤ t.planned_start_date.getD 0 then
        u :: insertByStart t us
      else t :: u :: us

/-- `task_list.sort(key=lambda t: t.planned_start_date)`: Python's sort is
stable, and stable sorting by a key is a unique function, so this stable
insertion sort computes it. -/
def sortByStart (l : List CTask) : List CTask :=
  l.foldl (fun acc t => insertByStart t acc) []

/-- The adjacent-pair scan of each sorted bucket (lines 126-141): a conflict
is emitted for consecutive tasks whose windows overlap, with severity
`medium` when the overlap is at most 3 days. -/
def adjacentOverlapConflicts (l : List CTask) : List SchedulingConflict :=
  (l.zip l.tail).filterMap (fun p =>
    match p.1.planned_end_date, p.2.planned_start_date with
    | some e, some s =>
        if e > s then
          some { conflict_type := "resource_overlap"
                 task_ids := [p.1.id, p.2.id]
                 severity := if e - s ≤ 3 then "medium" else "high" }
        else none
    | _, _ => none)

/-- `_detect_date_conflicts` (lines 109-156): per-assignee overlap conflicts
followed by project-deadline violations. -/
def detectDateConflicts (tasks : List CTask) : List SchedulingConflict :=
  let groups := buildResourceGroups tasks []
  let overlapConflicts :=
    groups.flatMap (fun g => adjacentOverlapConflicts (sortByStart g.2))
  let deadlineConflicts := tasks.filterMap (fun t =>
    match t.planned_end_date, t.project_end_date with
    | some e, some pe =>
        if e > pe then
          some { conflict_type := "project_deadline_violation"
                 task_ids := [t.id]
                 severity := "high" }
        else none
    | _, _ => none)
  overlapConflicts ++ deadlineConflicts

/-- The `resource_workload` accumulation of `_detect_resource_conflicts`
(lines 163-169): estimated hours summed per assignee (Python truthiness
excludes absent and zero `estimated_hours`). -/
def buildWorkload : List CTask → List (String × ℚ) → List (String × ℚ)
  | [], acc => acc
  | t :: ts, acc =>
      match t.assigned_to, t.estimated_hours with
      | some r, some h =>
          if h = 0 then buildWorkload ts acc
          else
            match acc.find? (fun p => p.1 == r) with
            | some _ =>
                buildWorkload ts
                  (acc.map (fun p => if p.1 == r then (p.1, p.2 + h) else p))
            | none => buildWorkload ts (acc ++ [(r, h)])
      | _, _ => buildWorkload ts acc

/-- `_detect_resource_conflicts` (lines 158-186): monthly capacity 160h;
severity scales with the percentage overload. -/
def detectResourceConflicts (tasks : List CTask) : List SchedulingConflict :=
  (buildWorkload tasks []).filterMap (fun p =>
    if p.2 > 160 then
      some { conflict_type := "resource_overallocation"
             task_ids := []
             severity :=
               if (p.2 - 160) / 160 * 100 > (50 : ℚ) then "high" else "medium" }
    else none)

/-- `_detect_dependency_conflicts` (lines 188-215). -/
def detectDependencyConflicts (tasks : List CTask) : List SchedulingConflict :=
  tasks.flatMap (fun t =>
    t.predecessor_tasks.filterMap (fun predId =>
      match tasks.find? (fun u => u.id == predId) with
      | some pred =>
          match pred.planned_end_date, t.planned_start_date with
          | some e, some s =>
              if e > s then
                some { conflict_type := "dependency_violation"
                       task_ids := [pred.id, t.id]
                       severity := "high" }
              else none
          | _, _ => none
      | none => none))

/-- `_detect_capacity_conflicts` (lines 217-238): effort exceeding an
8h/day ceiling (truthiness excludes absent/zero duration and hours). -/
def detectCapacityConflicts (tasks : List CTask) : List SchedulingConflict :=
  tasks.filterMap (fun t =>
    match t.planned_duration_days, t.estimated_hours with
    | some d, some h =>
        if d = 0 ∨ h = 0 then none
        else if h > (d : ℚ) * 8 then
          some { conflict_type := "capacity_violation"
                 task_ids := [t.id]
                 severity := "medium" }
        else none
    | _, _ => none)

/-- `detect_project_conflicts` (lines 23-57): union of the four detectors,
in order. -/
def detectProjectConflicts (tasks : List CTask) : List SchedulingConflict :=
  if tasks.isEmpty then []
  else
    detectDateConflicts tasks ++ detectResourceConflicts tasks ++
      detectDependencyConflicts tasks ++ detectCapacityConflicts tasks

/-- The decision part of `_resolve_resource_overlap` (lines 272-313): read
the two tasks through the session (`get`), and if the first one's end
overlaps the second one's start, produce the resolution record together
with the task id to update and its delayed copy (the commit itself is
`applyResolution`). -/
def resolveResourceOverlapCore (c : SchedulingConflict)
    (get : String → Option CTask) : Option (Resolution × String × CTask) :=
  match c.task_ids with
  | [a, b] =>
      match get a, get b with
      | some task1, some task2 =>
          match task1.planned_end_date, task2.planned_start_date with
          | some e1, some s2 =>
              let delay := e1 - s2 + 1
              if delay > 0 then
                let task2' := { task2 with
                  planned_start_date := some (s2 + delay)
                  planned_end_date := task2.planned_end_date.map (· + delay) }
                some ({ conflict_type := "resource_overlap"
                        resolution_type := "delay_task"
                        affected_tasks := [task2.id]
                        changes :=
                          { planned_start_date := some (s2 + delay)
                            planned_end_date := task2.planned_end_date.map (· + delay)
                            delay_days := some delay
                            planned_duration_days := none
                            old_duration := none } },
                  b, task2')
              else none
          | _, _ => none
      | _, _ => none
  | _ => none

/-- The decision part of `_resolve_dependency_violation` (lines 315-356):
the same delta logic, applied to the successor. -/
def resolveDependencyViolationCore (c : SchedulingConflict)
    (get : String → Option CTask) : Option (Resolution × String × CTask) :=
  match c.task_ids with
  | [a, b] =>
      match get a, get b with
      | some predTask, some succTask =>
          match predTask.planned_end_date, succTask.planned_start_date with
          | some e1, some s2 =>
              let delay := e1 - s2 + 1
              if delay > 0 then
                let succTask' := { succTask with
                  planned_start_date := some (s2 + delay)
                  planned_end_date := succTask.planned_end_date.map (· + delay) }
                some ({ conflict_type := "dependency_violation"
                        resolution_type := "delay_successor"
                        affected_tasks := [succTask.id]
                        changes :=
                          { planned_start_date := some (s2 + delay)
                            planned_end_date := succTask.planned_end_date.map (· + delay)
                            delay_days := some delay
                            planned_duration_days := none
                            old_duration := none } },
                  b, succTask')
              else none
          | _, _ => none
      | _, _ => none
  | _ => none

/-- The decision part of `_resolve_capacity_violation` (lines 358-397):
extend the duration to `int(estimated_hours / 8) + 1` days (Python
truthiness rejects absent/zero hours and duration). -/
def resolveCapacityViolationCore (c : SchedulingConflict)
    (get : String → Option CTask) : Option (Resolution × String × CTask) :=
  match c.task_ids with
  | [a] =>
      match get a with
      | some task =>
          match task.estimated_hours, task.planned_duration_days with
          | some h, some d =>
              if h = 0 ∨ d = 0 then none
              else
                let required := qTrunc (h / 8) + 1
                if required > d then
                  let newEnd := match task.planned_start_date with
                    | some st => some (st + required)
                    | none => task.planned_end_date
                  let task' := { task with
                    planned_duration_days := some required
                    planned_end_date := newEnd }
                  some ({ conflict_type := "capacity_violation"
                          resolution_type := "extend_duration"
                          affected_tasks := [task.id]
                          changes :=
                            { planned_start_date := none
                              planned_end_date := newEnd
                              delay_days := none
                              planned_duration_days := some required
                              old_duration := some d } },
                    a, task')
                else none
          | _, _ => none
      | none => none
  | _ => none

/-- The dispatch of `_resolve_single_conflict` (lines 240-270): the three
auto-resolvable conflict types; everything else is left unresolved. -/
def resolveSingleConflictCore (c : SchedulingConflict) (strategy : String)
    (get : String → Option CTask) : Option (Resolution × String × CTask) :=
  if c.conflict_type == "resource_overlap" && strategy == "auto" then
    resolveResourceOverlapCore c get
  else if c.conflict_type == "dependency_violation" && strategy == "auto" then
    resolveDependencyViolationCore c get
  else if c.conflict_type == "capacity_violation" && strategy == "auto" then
    resolveCapacityViolationCore c get
  else none

/-- Committing a decision: `db_session.commit()` of the mutated task, or no
change when the resolver returned `None`. -/
def applyResolution (s : CStore) :
    Option (Resolution × String × CTask) → Option Resolution × CStore
  | none => (none, s)
  | some (r, tid, t') => (some r, storeSet s tid t')

/-- `_resolve_single_conflict` (lines 240-270): decide from the current
store, then commit. -/
def resolveSingleConflict (c : SchedulingConflict) (strategy : String)
    (s : CStore) : Option Resolution × CStore :=
  applyResolution s (resolveSingleConflictCore c strategy (storeGet s))

/-- The conflict loop of `resolve_conflicts` (lines 81-87), threading the
store and collecting applied resolutions and unresolved conflicts in
order. -/
def resolveLoop (strategy : String) :
    List SchedulingConflict → CStore →
    List Resolution × List SchedulingConflict × CStore
  | [], s => ([], [], s)
  | c :: cs, s =>
      match resolveSingleConflict c strategy s with
      | (some r, s') =>
          let rest := resolveLoop strategy cs s'
          (r :: rest.1, rest.2.1, rest.2.2)
      | (none, s') =>
          let rest := resolveLoop strategy cs s'
          (rest.1, c :: rest.2.1, rest.2.2)

/-- `resolve_conflicts` (lines 59-107): the loop's tallies packaged into the
result (the body cannot raise, so the `except` branch is unreachable). -/
def resolveConflicts (conflicts : List SchedulingConflict) (strategy : String)
    (s : CStore) : ConflictResolutionResult × CStore :=
  let r := resolveLoop strategy conflicts s
  ({ conflicts_detected := conflicts.length
     conflicts_resolved := r.1.length
     unresolved_conflicts := r.2.1
     applied_resolutions := r.1 },
   r.2.2)

/-! ## Baseline service (`baseline_service.py`)

`_get_task_baseline` is a placeholder returning `None` (baseline tables are
not implemented), so the comparison core of `compare_task_to_baseline`
(lines 184-247) is embedded against a baseline snapshot supplied as an
argument — the snapshot a real baseline store would return, per the spec's
Baseline Manager contract. -/

/-- Task fields compared against a baseline. -/
structure BTask where
  name : String
  description : Option String
  planned_start_date : Option Int
  planned_end_date : Option Int
  planned_duration_days : Option Int
  budgeted_cost : ℚ
  estimated_hours : Option ℚ
  predecessor_tasks : List String
deriving DecidableEq

/-- The `TaskBaseline` snapshot fields consulted by the comparison. -/
structure TaskBaselineRec where
  name : String
  description : Option String
  planned_start_date : Option Int
  planned_end_date : Option Int
  planned_duration_days : Option Int
  budgeted_cost : ℚ
  estimated_hours : Option ℚ
  predecessor_tasks : List String
deriving DecidableEq

/-- A heterogeneous old/new value in a change entry. -/
inductive FieldVal where
  | str : Option String → FieldVal
  | date : Option Int → FieldVal
  | intv : Option Int → FieldVal
  | money : Option ℚ → FieldVal
  | ids : List String → FieldVal
deriving DecidableEq

/-- One entry of the `changes` dict. -/
structure ChangeEntry where
  field_name : String
  old_value : FieldVal
  new_value : FieldVal
  change_type : String
deriving DecidableEq

/-- The `TaskBaselineComparison` result (`change_summary`, ids and
timestamps elided). -/
structure TaskBaselineComparisonRec where
  changes : List (String × ChangeEntry)
  severity : String
deriving DecidableEq

/-- `_determine_change_type` (lines 259-270). -/
def determineChangeType (fieldName : String) : String :=
  if fieldName = "planned_start_date" ∨ fieldName = "planned_end_date" then
    "schedule_change"
  else if fieldName = "budgeted_cost" ∨ fieldName = "estimated_hours" then
    "cost_change"
  else if fieldName = "name" ∨ fieldName = "description" then
    "content_change"
  else if fieldName = "planned_duration_days" then "duration_change"
  else "general_change"

/-- Python truthiness of an old/new value in the cost branch of
`_calculate_change_severity` (`if old_value and new_value`): present and
nonzero. -/
def fieldValTruthy : FieldVal → Bool
  | .money (some q) => q ≠ 0
  | .money none => false
  | .intv (some n) => n ≠ 0
  | .intv none => false
  | .str (some s) => s ≠ ""
  | .str none => false
  | .date (some _) => true
  | .date none => false
  | .ids l => !l.isEmpty

/-- Numeric content of a value, for the percentage computation. -/
def fieldValNum : FieldVal → ℚ
  | .money (some q) => q
  | .intv (some n) => (n : ℚ)
  | _ => 0

/-- `_calculate_change_severity` (lines 272-293): 1-5 severity score. -/
def calcChangeSeverity (fieldName : String) (oldValue newValue : FieldVal) :
    Int :=
  if fieldName = "budgeted_cost" ∨ fieldName = "estimated_hours" then
    if fieldValTruthy oldValue && fieldValTruthy newValue then
      let percentChange :=
        |((fieldValNum newValue - fieldValNum oldValue) / fieldValNum oldValue * 100)|
      if percentChange > 50 then 5
      else if percentChange > 25 then 4
      else if percentChange > 10 then 3
      else 3
    else 3
  else if fieldName = "planned_start_date" ∨ fieldName = "planned_end_date" ∨
      fieldName = "planned_duration_days" then 4
  else if fieldName = "name" then 2
  else 1

/-- Python set equality of two id lists. -/
def idSetEq (a b : List String) : Bool :=
  a.all (· ∈ b) && b.all (· ∈ a)

/-- The per-field comparison loop of `compare_task_to_baseline` (lines
187-209) followed by the dependency-set comparison (lines 211-221),
yielding the change entries in field order. -/
def compareChanges (task : BTask) (baseline : TaskBaselineRec) :
    List (String × ChangeEntry) :=
  (if task.name ≠ baseline.name then
    [("name", { field_name := "Task name"
                old_value := .str (some baseline.name)
                new_value := .str (some task.name)
                change_type := determineChangeType "name" })]
   else []) ++
  (if task.description ≠ baseline.description then
    [("description", { field_name := "Description"
                       old_value := .str baseline.description
                       new_value := .str task.description
                       change_type := determineChangeType "description" })]
   else []) ++
  (if task.planned_start_date ≠ baseline.planned_start_date then
    [("planned_start_date", { field_name := "Planned start date"
                              old_value := .date baseline.planned_start_date
                              new_value := .date task.planned_start_date
                              change_type := determineChangeType "planned_start_date" })]
   else []) ++
  (if task.planned_end_date ≠ baseline.planned_end_date then
    [("planned_end_date", { field_name := "Planned end date"
                            old_value := .date baseline.planned_end_date
                            new_value := .date task.planned_end_date
                            change_type := determineChangeType "planned_end_date" })]
   else []) ++
  (if task.planned_duration_days ≠ baseline.planned_duration_days then
    [("planned_duration_days", { field_name := "Planned duration"
                                 old_value := .intv baseline.planned_duration_days
                                 new_value := .intv task.planned_duration_days
                                 change_type := determineChangeType "planned_duration_days" })]
   else []) ++
  (if task.budgeted_cost ≠ baseline.budgeted_cost then
    [("budgeted_cost", { field_name := "Budgeted cost"
                         old_value := .money (some baseline.budgeted_cost)
                         new_value := .money (some task.budgeted_cost)
                         change_type := determineChangeType "budgeted_cost" })]
   else []) ++
  (if task.estimated_hours ≠ baseline.estimated_hours then
    [("estimated_hours", { field_name := "Estimated hours"
                           old_value := .money baseline.estimated_hours
                           new_value := .money task.estimated_hours
                           change_type := determineChangeType "estimated_hours" })]
   else []) ++
  (if !idSetEq task.predecessor_tasks baseline.predecessor_tasks then
    [("predecessor_tasks", { field_name := "Predecessor tasks"
                             old_value := .ids baseline.predecessor_tasks
                             new_value := .ids task.predecessor_tasks
                             change_type := "dependency_change" })]
   else [])

/-- The severity scores appended alongside the change entries: one
`_calculate_change_severity` score per changed core field, plus a literal
3 for a dependency-set change. -/
def severityScores (task : BTask) (baseline : TaskBaselineRec) : List Int :=
  (compareChanges task baseline).map (fun p =>
    if p.1 = "predecessor_tasks" then 3
    else calcChangeSeverity p.1 p.2.old_value p.2.new_value)

/-- The overall-severity mapping of lines 223-235. -/
def severityLabel (scores : List Int) : String :=
  match scores with
  | [] => "none"
  | s :: rest =>
      let maxSeverity := rest.foldl max s
      if maxSeverity ≥ 4 then "critical"
      else if maxSeverity ≥ 3 then "high"
      else if maxSeverity ≥ 2 then "medium"
      else "low"

/-- The comparison core of `compare_task_to_baseline` (lines 184-247),
given the task and the stored baseline snapshot. -/
def compareTaskToBaseline (task : BTask) (baseline : TaskBaselineRec) :
    TaskBaselineComparisonRec :=
  { changes := compareChanges task baseline
    severity := severityLabel (severityScores task baseline) }

/-! ## Concrete inputs for the scenario, witness and counterexample theorems

Dates are day ordinals, `2024-01-k` encoded as `k`. -/

/-- Tasks A, B, C of the three-task cycle check. -/
def cycTasks : List VTask :=
  [⟨"A", "A", some 1, some 5⟩, ⟨"B", "B", some 1, some 5⟩,
   ⟨"C", "C", some 1, some 5⟩]

/-- The dependency edges A→B→C→A. -/
def cycDeps : List TaskDependencyRec :=
  [⟨"d1", "A", "B"⟩, ⟨"d2", "B", "C"⟩, ⟨"d3", "C", "A"⟩]

/-- The adjacency list `_build_dependency_graph` builds from `cycDeps`. -/
def cycAdj : List (String × List String) :=
  [("A", ["B"]), ("B", ["C"]), ("C", ["A"])]

/-- Scenario 1 tasks for the validator: T1 2024-01-01→2024-01-05,
T2 2024-01-05→2024-01-10. -/
def scn1VTasks : List VTask :=
  [⟨"T1", "T1", some 1, some 5⟩, ⟨"T2", "T2", some 5, some 10⟩]

/-- Scenario 1 dependency T1→T2 for the validator. -/
def scn1VDeps : List TaskDependencyRec := [⟨"d1", "T1", "T2"⟩]

/-- Scenario 1 tasks for the scheduler. -/
def scn1STasks : List STask :=
  [⟨"T1", "T1", 1, 5, some 1000⟩, ⟨"T2", "T2", 5, 10, none⟩]

/-- Scenario 1 dependency (finish-to-start, lag 0) for the scheduler. -/
def scn1SDeps : List SDep := [⟨"T1", "T2", 0⟩]

/-- Scenario 1 tasks for the EVM engine: T1 budget 1000, progress 100%,
actual cost 900; T2 without budget or cost. -/
def scn1EvmTasks : List EvmTask :=
  [⟨some 1000, 100, some 900⟩, ⟨none, 0, none⟩]

/-- A task with budget 200, progress 50%, actual cost 80: EV=100, AC=80,
CPI=5/4, EAC=160. -/
def c3Tasks : List EvmTask := [⟨some 200, 50, some 80⟩]

/-- A task with budget 100, progress 100%, no actual cost: EV=100, AC=0,
CPI=0. -/
def c5Tasks : List EvmTask := [⟨some 100, 100, none⟩]

/-- A two-day task for the optimizer. -/
def c4Task : STask := ⟨"T1", "T1", 1, 3, none⟩

/-- A `finish_before` constraint that makes `c4Task` infeasible (the task
needs 2 days but must end within 1 day of today). -/
def c4Constraint : TaskConstraint :=
  ⟨"finish_before", some "T1", some 1, none, none, none⟩

/-- Scenario 2 task A: assignee R, 2024-01-01→2024-01-10. -/
def scn2TaskA : CTask :=
  ⟨"A", "A", some "R", some 1, some 10, none, none, [], none⟩

/-- Scenario 2 task B: assignee R, 2024-01-05→2024-01-15. -/
def scn2TaskB : CTask :=
  ⟨"B", "B", some "R", some 5, some 15, none, none, [], none⟩

/-- Overlap-counterexample task spanning 2024-01-01→2024-01-20. -/
def c6TaskX1 : CTask :=
  ⟨"X1", "X1", some "R", some 1, some 20, none, none, [], none⟩

/-- Overlap-counterexample task spanning 2024-01-02→2024-01-03. -/
def c6TaskX2 : CTask :=
  ⟨"X2", "X2", some "R", some 2, some 3, none, none, [], none⟩

/-- Overlap-counterexample task spanning 2024-01-10→2024-01-12:
it overlaps `c6TaskX1` but is not adjacent to it in start order. -/
def c6TaskX3 : CTask :=
  ⟨"X3", "X3", some "R", some 10, some 12, none, none, [], none⟩

/-- Idempotence-counterexample task: 2024-01-01→2024-01-10. -/
def c8TaskY1 : CTask :=
  ⟨"Y1", "Y1", some "R", some 1, some 10, none, none, [], none⟩

/-- Idempotence-counterexample task: 2024-01-05→2024-01-15. -/
def c8TaskY2 : CTask :=
  ⟨"Y2", "Y2", some "R", some 5, some 15, none, none, [], none⟩

/-- Two conflicts sharing both tasks: resolving the overlap delays Y2 past
Y1's end, then resolving the dependency violation (Y2 before Y1) delays Y1
past Y2's new end, recreating the overlap for the next pass. -/
def c8Conflicts : List SchedulingConflict :=
  [⟨"resource_overlap", ["Y1", "Y2"], "high"⟩,
   ⟨"dependency_violation", ["Y2", "Y1"], "medium"⟩]

/-- Scenario 3 live task: budget changed to 1500. -/
def c9Task : BTask := ⟨"T", none, none, none, none, 1500, none, []⟩

/-- Scenario 3 baseline snapshot: budget 1000. -/
def c9Baseline : TaskBaselineRec := ⟨"T", none, none, none, none, 1000, none, []⟩

/-! ## Theorems -/

/-- C10: for every EVM metrics input, the success-probability score lies
between 25 and 100 inclusive — each of the three weighted brackets (SPI,
CPI, percent-complete) contributes a strictly positive minimum of 10, 10
and 5, so a predicted success probability of 0 is unreachable. -/
theorem c10_success_probability_bounded (m : EarnedValueMetrics) :
    25 ≤ calculateSuccessProbability m ∧ calculateSuccessProbability m ≤ 100 := by
  unfold calculateSuccessProbability
  split_ifs <;> norm_num

/-- C3 (amended): every EVM result satisfies
`TCPI = (BAC − AC)/(EAC − EV)` when `EAC − EV > 0` and `0` otherwise — the
numerator is the remaining budget `BAC − AC`, not `BAC − EV` as the spec
states. -/
theorem c3_tcpi_identity (today : Int) (tasks : List EvmTask) (budget : ℚ)
    (ps pe : Int) :
    (calculateProjectEvm today tasks budget ps pe).to_complete_performance_index =
      if (calculateProjectEvm today tasks budget ps pe).estimate_at_completion -
          (calculateProjectEvm today tasks budget ps pe).earned_value > 0 then
        ((calculateProjectEvm today tasks budget ps pe).budget_at_completion -
            (calculateProjectEvm today tasks budget ps pe).actual_cost) /
          ((calculateProjectEvm today tasks budget ps pe).estimate_at_completion -
            (calculateProjectEvm today tasks budget ps pe).earned_value)
      else 0 := rfl

/-- C3 (counterexample): with one task of budget 200, progress 50% and
actual cost 80 (EV=100, AC=80, EAC=160), the denominator EAC − EV = 60 is
positive yet the returned TCPI (= 2) differs from the spec's
(BAC − EV)/(EAC − EV) (= 5/3). -/
theorem c3_spec_formula_fails :
    0 < (calculateProjectEvm 1 c3Tasks 200 1 11).estimate_at_completion -
        (calculateProjectEvm 1 c3Tasks 200 1 11).earned_value ∧
    (calculateProjectEvm 1 c3Tasks 200 1 11).to_complete_performance_index ≠
      ((calculateProjectEvm 1 c3Tasks 200 1 11).budget_at_completion -
          (calculateProjectEvm 1 c3Tasks 200 1 11).earned_value) /
        ((calculateProjectEvm 1 c3Tasks 200 1 11).estimate_at_completion -
          (calculateProjectEvm 1 c3Tasks 200 1 11).earned_value) := by
  norm_num [calculateProjectEvm, calculateEarnedValue, calculateActualCost,
    calculatePlannedValue, calculateEac, quantize2, c3Tasks]

/-- C5 (amended): the EVM identities as computed — CPI, SPI and
percent-complete exactly as the claim states them, but in the EAC formula
the `CPI ≤ 0` guard takes precedence over the `EV ≥ BAC` (project complete)
guard: when both hold, EAC is BAC, not AC. -/
theorem c5_evm_identities (today : Int) (tasks : List EvmTask) (budget : ℚ)
    (ps pe : Int) :
    (calculateProjectEvm today tasks budget ps pe).cost_performance_index =
      (if (calculateProjectEvm today tasks budget ps pe).actual_cost > 0 then
        (calculateProjectEvm today tasks budget ps pe).earned_value /
          (calculateProjectEvm today tasks budget ps pe).actual_cost
      else 0) ∧
    (calculateProjectEvm today tasks budget ps pe).schedule_performance_index =
      (if (calculateProjectEvm today tasks budget ps pe).planned_value > 0 then
        (calculateProjectEvm today tasks budget ps pe).earned_value /
          (calculateProjectEvm today tasks budget ps pe).planned_value
      else 0) ∧
    (calculateProjectEvm today tasks budget ps pe).percent_complete =
      (if (calculateProjectEvm today tasks budget ps pe).budget_at_completion > 0 then
        (calculateProjectEvm today tasks budget ps pe).earned_value /
          (calculateProjectEvm today tasks budget ps pe).budget_at_completion * 100
      else 0) ∧
    (calculateProjectEvm today tasks budget ps pe).estimate_at_completion =
      (if (calculateProjectEvm today tasks budget ps pe).cost_performance_index ≤ 0 then
        (calculateProjectEvm today tasks budget ps pe).budget_at_completion
      else if (calculateProjectEvm today tasks budget ps pe).budget_at_completion -
          (calculateProjectEvm today tasks budget ps pe).earned_value ≤ 0 then
        (calculateProjectEvm today tasks budget ps pe).actual_cost
      else
        quantize2 ((calculateProjectEvm today tasks budget ps pe).actual_cost +
          ((calculateProjectEvm today tasks budget ps pe).budget_at_completion -
            (calculateProjectEvm today tasks budget ps pe).earned_value) /
            (calculateProjectEvm today tasks budget ps pe).cost_performance_index)) :=
  ⟨rfl, rfl, rfl, rfl⟩

/-- C5 (counterexample): a project with one fully complete task of budget
100 and no recorded actual cost, under a project budget of 50, has
EV = 100 ≥ 50 = BAC (project complete per the claim) but CPI = 0, and the
returned EAC is BAC = 50, not AC = 0 as the claim requires. -/
theorem c5_eac_guard_order_fails :
    (calculateProjectEvm 1 c5Tasks 50 1 11).earned_value ≥
      (calculateProjectEvm 1 c5Tasks 50 1 11).budget_at_completion ∧
    (calculateProjectEvm 1 c5Tasks 50 1 11).cost_performance_index ≤ 0 ∧
    (calculateProjectEvm 1 c5Tasks 50 1 11).estimate_at_completion ≠
      (calculateProjectEvm 1 c5Tasks 50 1 11).actual_cost := by
  norm_num [calculateProjectEvm, calculateEarnedValue, calculateActualCost,
    calculatePlannedValue, calculateEac, quantize2, c5Tasks]

/-- C4 (counterexample): on an infeasible input (a 2-day task constrained
to finish 1 day from today) the optimizer returns `solution_found = false`
with an *empty* `optimized_tasks` — it does not return the CPM engine's
schedule (which is nonempty for the same task) and carries no
`approximate` tag. -/
theorem c4_infeasible_returns_empty :
    (optimizeScheduleWithConstraints 0 [c4Task] [c4Constraint]
      "minimize_duration").solution_found = false ∧
    (optimizeScheduleWithConstraints 0 [c4Task] [c4Constraint]
      "minimize_duration").optimized_tasks = [] ∧
    (fallbackCpmCalculation [c4Task] []).task_schedules ≠ [] := by
  decide

/-- C4 (amended): for every nonempty task list whose constraint set makes
some task's interval infeasible, the call returns `solution_found = false`,
an empty optimized-task list, `objective_value = 0` and the constraint
count — and, being a total function, never raises (the source wraps the
body in a blanket `except` returning a failure result). -/
theorem c4_infeasible_semantics (today : Int) (tasks : List STask)
    (constraints : List TaskConstraint) (goal : String) (t0 : STask)
    (h1 : t0 ∈ tasks) (h2 : taskFeasible today constraints t0 = false) :
    optimizeScheduleWithConstraints today tasks constraints goal =
      { optimized_tasks := []
        objective_value := 0
        optimization_goal := goal
        constraints_applied := constraints.length
        solution_found := false } := by
  have he : tasks.isEmpty = false := by
    cases tasks with
    | nil => cases h1
    | cons a l => rfl
  have ha : tasks.all (taskFeasible today constraints) = false := by
    rw [List.all_eq_false]
    exact ⟨t0, h1, by simp [h2]⟩
  unfold optimizeScheduleWithConstraints
  rw [he, ha]
  simp

/-- Witness for the amended C4 theorem at the concrete infeasible input. -/
theorem c4_infeasible_semantics_witness :
    optimizeScheduleWithConstraints 0 [c4Task] [c4Constraint]
        "minimize_duration" =
      { optimized_tasks := []
        objective_value := 0
        optimization_goal := "minimize_duration"
        constraints_applied := 1
        solution_found := false } :=
  c4_infeasible_semantics 0 [c4Task] [c4Constraint] "minimize_duration"
    c4Task (by decide) (by decide)

/-- C9 (counterexample): Scenario 3's budget change from 1000 to 1500 is
exactly a 50% increase, and `_calculate_change_severity` uses a strict
`> 50` comparison, so the severity score is 4, not 5 as claimed (the
overall severity is still `critical`, since 4 maps to `critical`). -/
theorem c9_fifty_percent_scores_four :
    calcChangeSeverity "budgeted_cost" (.money (some 1000)) (.money (some 1500)) = 4 ∧
    calcChangeSeverity "budgeted_cost" (.money (some 1000)) (.money (some 1500)) ≠ 5 ∧
    (compareTaskToBaseline c9Task c9Baseline).severity = "critical" := by
  refine ⟨?_, ?_, ?_⟩ <;>
    · norm_num [calcChangeSeverity, fieldValTruthy, fieldValNum,
        compareTaskToBaseline, severityScores, severityLabel, compareChanges,
        determineChangeType, idSetEq, c9Task, c9Baseline]
      try decide

/-- C9 (amended): cost-field severity brackets are >50%→5, >25%→4, >10%→3
with everything at or below 10% (and untruthy old/new values) also scoring
3; and for Scenario 3 (budget 1000→1500, exactly 50%) the comparison
reports the `cost_change` entry with old 1000 / new 1500, a severity score
of 4 — not 5 — and overall severity `critical`. -/
theorem c9_severity_classification :
    (∀ o n : ℚ, o ≠ 0 → n ≠ 0 →
      calcChangeSeverity "budgeted_cost" (.money (some o)) (.money (some n)) =
        if |(n - o) / o * 100| > 50 then 5
        else if |(n - o) / o * 100| > 25 then 4
        else if |(n - o) / o * 100| > 10 then 3
        else 3) ∧
    (compareTaskToBaseline c9Task c9Baseline).changes =
      [("budgeted_cost",
        { field_name := "Budgeted cost"
          old_value := .money (some 1000)
          new_value := .money (some 1500)
          change_type := "cost_change" })] ∧
    severityScores c9Task c9Baseline = [4] ∧
    (compareTaskToBaseline c9Task c9Baseline).severity = "critical" := by
  refine ⟨fun o n ho hn => ?_, ?_, ?_, ?_⟩
  · simp [calcChangeSeverity, fieldValTruthy, fieldValNum, ho, hn]
  · norm_num [compareTaskToBaseline, compareChanges, determineChangeType,
      idSetEq, c9Task, c9Baseline]
    try decide
  · norm_num [severityScores, compareChanges, determineChangeType, idSetEq,
      calcChangeSeverity, fieldValTruthy, fieldValNum, c9Task, c9Baseline]
    try decide
  · norm_num [compareTaskToBaseline, severityScores, severityLabel,
      compareChanges, determineChangeType, idSetEq, calcChangeSeverity,
      fieldValTruthy, fieldValNum, c9Task, c9Baseline]
    try decide

/-- Witness for the amended C9 theorem: the cost bracket applied at the
concrete change 1000 → 1500. -/
theorem c9_severity_classification_witness :
    calcChangeSeverity "budgeted_cost" (.money (some 1000)) (.money (some 1500)) =
      if |((1500 : ℚ) - 1000) / 1000 * 100| > 50 then 5
      else if |((1500 : ℚ) - 1000) / 1000 * 100| > 25 then 4
      else if |((1500 : ℚ) - 1000) / 1000 * 100| > 10 then 3
      else 3 :=
  c9_severity_classification.1 1000 1500 (by norm_num) (by norm_num)

/-- C2: on Scenario 1 the code diverges from the claim in two places.
`validate_dependencies` returns `is_valid = false` — the cycle-detection
DFS inserts the sink task into the `defaultdict` it is iterating, raising
`RuntimeError`, which the blanket `except` converts into a failure result.
The fallback CPM marks both tasks critical, but its `total_duration` is 5
(the maximum single-task duration), not the claimed 9.  The EVM conjunct
holds: EV = 1000, AC = 900, CPI = 10/9 ≈ 1.11. -/
theorem c2_scenario1 :
    (validateProjectDependencies scn1VTasks scn1VDeps).is_valid = false ∧
    (validateProjectDependencies scn1VTasks scn1VDeps).errors =
      ["Validation failed: dictionary changed size during iteration"] ∧
    (fallbackCpmCalculation scn1STasks scn1SDeps).critical_path = ["T1", "T2"] ∧
    (∀ sch ∈ (fallbackCpmCalculation scn1STasks scn1SDeps).task_schedules,
      sch.is_critical = true) ∧
    (fallbackCpmCalculation scn1STasks scn1SDeps).total_duration = 5 ∧
    (fallbackCpmCalculation scn1STasks scn1SDeps).total_duration ≠ 9 ∧
    (calculateProjectEvm 1 scn1EvmTasks 1000 1 10).earned_value = 1000 ∧
    (calculateProjectEvm 1 scn1EvmTasks 1000 1 10).actual_cost = 900 ∧
    (calculateProjectEvm 1 scn1EvmTasks 1000 1 10).cost_performance_index = 10 / 9 := by
  refine ⟨by decide, by decide, by decide, by decide, by decide, by decide,
    ?_, ?_, ?_⟩ <;>
    norm_num [calculateProjectEvm, calculateEarnedValue, calculateActualCost,
      calculatePlannedValue, calculateEac, quantize2, scn1EvmTasks]

/-- Unsupported conflict types are never resolved: the dispatch returns
`None`. -/
theorem resolveSingleCore_overallocation (c : SchedulingConflict)
    (strategy : String) (get : String → Option CTask)
    (h : c.conflict_type = "resource_overallocation") :
    resolveSingleConflictCore c strategy get = none := by
  simp [resolveSingleConflictCore, h]

/-- Under any strategy other than `auto`, the dispatch resolves nothing. -/
theorem resolveSingleCore_nonauto (c : SchedulingConflict) (strategy : String)
    (get : String → Option CTask) (h : strategy ≠ "auto") :
    resolveSingleConflictCore c strategy get = none := by
  have hb : (strategy == "auto") = false := beq_eq_false_iff_ne.mpr h
  simp [resolveSingleConflictCore, hb]

/-- Unfolding lemma for one step of the resolution loop. -/
theorem resolveLoop_cons (strategy : String) (c : SchedulingConflict)
    (cs : List SchedulingConflict) (s : CStore) :
    resolveLoop strategy (c :: cs) s =
      match resolveSingleConflict c strategy s with
      | (some r, s') =>
          (r :: (resolveLoop strategy cs s').1,
            (resolveLoop strategy cs s').2.1,
            (resolveLoop strategy cs s').2.2)
      | (none, s') =>
          ((resolveLoop strategy cs s').1,
            c :: (resolveLoop strategy cs s').2.1,
            (resolveLoop strategy cs s').2.2) := rfl

/-- The resolution loop partitions its input: each conflict contributes
either one applied resolution or one unresolved entry (in order), every
`resource_overallocation` conflict ends up unresolved, and a non-`auto`
strategy resolves nothing. -/
theorem resolveLoop_partition (strategy : String)
    (cs : List SchedulingConflict) (s : CStore) :
    (resolveLoop strategy cs s).1.length +
        (resolveLoop strategy cs s).2.1.length = cs.length ∧
    (resolveLoop strategy cs s).2.1.Sublist cs ∧
    (∀ c ∈ cs, c.conflict_type = "resource_overallocation" →
      c ∈ (resolveLoop strategy cs s).2.1) ∧
    (strategy ≠ "auto" →
      (resolveLoop strategy cs s).1 = [] ∧ (resolveLoop strategy cs s).2.1 = cs) := by
  induction cs generalizing s with
  | nil => simp [resolveLoop]
  | cons c cs ih =>
      rcases hcore : resolveSingleConflictCore c strategy (storeGet s) with
        _ | ⟨r, tid, t'⟩
      · have hsingle : resolveSingleConflict c strategy s = (none, s) := by
          unfold resolveSingleConflict
          rw [hcore]
          rfl
        have hstep : resolveLoop strategy (c :: cs) s =
            ((resolveLoop strategy cs s).1,
              c :: (resolveLoop strategy cs s).2.1,
              (resolveLoop strategy cs s).2.2) := by
          rw [resolveLoop_cons, hsingle]
        obtain ⟨ih1, ih2, ih3, ih4⟩ := ih s
        rw [hstep]
        refine ⟨by dsimp only; rw [List.length_cons, List.length_cons]; omega,
          ih2.cons₂ c, ?_,
          fun hns => ⟨(ih4 hns).1, by rw [(ih4 hns).2]⟩⟩
        intro d hd hdo
        rcases List.mem_cons.mp hd with rfl | hdm
        · exact List.mem_cons_self _ _
        · exact List.mem_cons_of_mem c (ih3 d hdm hdo)
      · have hsingle : resolveSingleConflict c strategy s =
            (some r, storeSet s tid t') := by
          unfold resolveSingleConflict
          rw [hcore]
          rfl
        have hstep : resolveLoop strategy (c :: cs) s =
            (r :: (resolveLoop strategy cs (storeSet s tid t')).1,
              (resolveLoop strategy cs (storeSet s tid t')).2.1,
              (resolveLoop strategy cs (storeSet s tid t')).2.2) := by
          rw [resolveLoop_cons, hsingle]
        have hover : c.conflict_type ≠ "resource_overallocation" := by
          intro hc
          rw [resolveSingleCore_overallocation c strategy (storeGet s) hc]
            at hcore
          exact Option.noConfusion hcore
        have hauto : strategy = "auto" := by
          by_contra hns
          rw [resolveSingleCore_nonauto c strategy (storeGet s) hns] at hcore
          exact Option.noConfusion hcore
        obtain ⟨ih1, ih2, ih3, _⟩ := ih (storeSet s tid t')
        rw [hstep]
        refine ⟨by dsimp only; rw [List.length_cons, List.length_cons]; omega,
          ih2.cons c, ?_, fun hns => absurd hauto hns⟩
        intro d hd hdo
        rcases List.mem_cons.mp hd with rfl | hdm
        · exact absurd hdo hover
        · exact ih3 d hdm hdo

/-- C7: `resolve_conflicts` partitions its input — `conflicts_detected` is
the input length, `conflicts_resolved` counts `applied_resolutions`, the
applied and unresolved entries together account for every conflict (the
unresolved ones verbatim, as a sublist), every `resource_overallocation`
conflict is returned unresolved, and under a non-`auto` strategy every
conflict is returned unresolved; being a total function, the call never
escalates a resolution failure. -/
theorem c7_resolution_partition (conflicts : List SchedulingConflict)
    (strategy : String) (s : CStore) :
    (resolveConflicts conflicts strategy s).1.conflicts_detected =
      conflicts.length ∧
    (resolveConflicts conflicts strategy s).1.conflicts_resolved =
      (resolveConflicts conflicts strategy s).1.applied_resolutions.length ∧
    (resolveConflicts conflicts strategy s).1.applied_resolutions.length +
        (resolveConflicts conflicts strategy s).1.unresolved_conflicts.length =
      conflicts.length ∧
    (resolveConflicts conflicts strategy s).1.unresolved_conflicts.Sublist
      conflicts ∧
    (∀ c ∈ conflicts, c.conflict_type = "resource_overallocation" →
      c ∈ (resolveConflicts conflicts strategy s).1.unresolved_conflicts) ∧
    (strategy ≠ "auto" →
      (resolveConflicts conflicts strategy s).1.unresolved_conflicts =
        conflicts) := by
  obtain ⟨h1, h2, h3, h4⟩ := resolveLoop_partition strategy conflicts s
  exact ⟨rfl, rfl, h1, h2, h3, fun hns => (h4 hns).2⟩

/-- Witness for C7 at a concrete input: one overallocation conflict under
the `auto` strategy ends up unresolved with the tallies adding up. -/
theorem c7_resolution_partition_witness :
    (resolveConflicts [⟨"resource_overallocation", [], "high"⟩] "auto"
      []).1.conflicts_detected = 1 ∧
    (⟨"resource_overallocation", [], "high"⟩ : SchedulingConflict) ∈
      (resolveConflicts [⟨"resource_overallocation", [], "high"⟩] "auto"
        []).1.unresolved_conflicts := by
  have h := c7_resolution_partition
    [⟨"resource_overallocation", [], "high"⟩] "auto" []
  exact ⟨h.1, h.2.2.2.2.1 _ (List.mem_singleton_self _) rfl⟩

/-- Members of an updated bucket list come from the old buckets or are the
newly inserted task under its own key. -/
theorem addToGroups_mem (groups : List (String × List CTask)) (r : String)
    (t : CTask) :
    ∀ p ∈ addToGroups groups r t, ∀ u ∈ p.2,
      (∃ q ∈ groups, q.1 = p.1 ∧ u ∈ q.2) ∨ (u = t ∧ p.1 = r) := by
  induction groups with
  | nil =>
      intro p hp u hu
      simp only [addToGroups, List.mem_singleton] at hp
      subst hp
      simp only [List.mem_singleton] at hu
      exact Or.inr ⟨hu, rfl⟩
  | cons a l ih =>
      obtain ⟨k, bucket⟩ := a
      intro p hp u hu
      simp only [addToGroups] at hp
      by_cases hk : (k == r) = true
      · rw [if_pos hk] at hp
        rcases List.mem_cons.mp hp with hph | hpl
        · subst hph
          rcases List.mem_append.mp hu with hul | hut
          · exact Or.inl ⟨(k, bucket), List.mem_cons_self _ _, rfl, hul⟩
          · simp only [List.mem_singleton] at hut
            exact Or.inr ⟨hut, by simpa using hk⟩
        · exact Or.inl ⟨p, List.mem_cons_of_mem _ hpl, rfl, hu⟩
      · rw [if_neg hk] at hp
        rcases List.mem_cons.mp hp with hph | hpl
        · subst hph
          exact Or.inl ⟨(k, bucket), List.mem_cons_self _ _, rfl, hu⟩
        · rcases ih p hpl u hu with ⟨q, hq, hq1, hq2⟩ | hr
          · exact Or.inl ⟨q, List.mem_cons_of_mem _ hq, hq1, hq2⟩
          · exact Or.inr hr

/-- Every task in a bucket of `buildResourceGroups` either was already in
the accumulator or comes from the task list with the bucket key as its
assignee. -/
theorem buildResourceGroups_mem (ts : List CTask) :
    ∀ (acc : List (String × List CTask)),
      ∀ p ∈ buildResourceGroups ts acc, ∀ u ∈ p.2,
        (∃ q ∈ acc, q.1 = p.1 ∧ u ∈ q.2) ∨
          (u ∈ ts ∧ u.assigned_to = some p.1) := by
  induction ts with
  | nil =>
      intro acc p hp u hu
      exact Or.inl ⟨p, hp, rfl, hu⟩
  | cons t ts ih =>
      intro acc p hp u hu
      have hskip : p ∈ buildResourceGroups ts acc →
          (∃ q ∈ acc, q.1 = p.1 ∧ u ∈ q.2) ∨
            (u ∈ t :: ts ∧ u.assigned_to = some p.1) := by
        intro hp'
        rcases ih acc p hp' u hu with h | ⟨hm, ha⟩
        · exact Or.inl h
        · exact Or.inr ⟨List.mem_cons_of_mem _ hm, ha⟩
      have hins : ∀ r, t.assigned_to = some r →
          p ∈ buildResourceGroups ts (addToGroups acc r t) →
          (∃ q ∈ acc, q.1 = p.1 ∧ u ∈ q.2) ∨
            (u ∈ t :: ts ∧ u.assigned_to = some p.1) := by
        intro r hr hp'
        rcases ih (addToGroups acc r t) p hp' u hu with
          ⟨q, hq, hq1, hq2⟩ | ⟨hm, ha⟩
        · rcases addToGroups_mem acc r t q hq u hq2 with
            ⟨q', hq', h1', h2'⟩ | ⟨hut, hkey⟩
          · exact Or.inl ⟨q', hq', h1'.trans hq1, h2'⟩
          · refine Or.inr ⟨?_, ?_⟩
            · rw [hut]; exact List.mem_cons_self _ _
            · rw [hut, hr, ← hq1, hkey]
        · exact Or.inr ⟨List.mem_cons_of_mem _ hm, ha⟩
      rcases h1 : t.assigned_to with _ | r <;>
        rcases h2 : t.planned_start_date with _ | sd <;>
        rcases h3 : t.planned_end_date with _ | ed <;>
        simp only [buildResourceGroups, h1, h2, h3] at hp <;>
        first
          | exact hskip hp
          | exact hins _ h1 hp

/-- Membership through the stable insertion. -/
theorem insertByStart_mem (t u : CTask) (l : List CTask) :
    u ∈ insertByStart t l ↔ u = t ∨ u ∈ l := by
  induction l with
  | nil => simp [insertByStart]
  | cons a l ih =>
      unfold insertByStart
      split
      · simp only [List.mem_cons, ih]
        tauto
      · simp only [List.mem_cons]
        try tauto

/-- Membership is preserved by the start-date sort. -/
theorem sortByStart_mem (l : List CTask) (u : CTask) :
    u ∈ sortByStart l ↔ u ∈ l := by
  have general : ∀ (l acc : List CTask),
      (u ∈ l.foldl (fun acc t => insertByStart t acc) acc ↔ u ∈ acc ∨ u ∈ l) := by
    intro l
    induction l with
    | nil => simp
    | cons a l ih =>
        intro acc
        simp only [List.foldl_cons, ih, insertByStart_mem, List.mem_cons]
        tauto
  simpa [sortByStart] using general l []

/-- Soundness of the adjacent-pair scan: every emitted conflict names two
members of the bucket whose windows overlap, with the severity rule. -/
theorem adjacentOverlapConflicts_sound (l : List CTask)
    (c : SchedulingConflict) (hc : c ∈ adjacentOverlapConflicts l) :
    ∃ t1 t2, t1 ∈ l ∧ t2 ∈ l ∧ ∃ e s,
      t1.planned_end_date = some e ∧ t2.planned_start_date = some s ∧
      e > s ∧ c = { conflict_type := "resource_overlap"
                    task_ids := [t1.id, t2.id]
                    severity := if e - s ≤ 3 then "medium" else "high" } := by
  unfold adjacentOverlapConflicts at hc
  obtain ⟨p, hp, hfp⟩ := List.mem_filterMap.mp hc
  have hmem := List.of_mem_zip hp
  refine ⟨p.1, p.2, hmem.1, List.mem_of_mem_tail hmem.2, ?_⟩
  rcases he : p.1.planned_end_date with _ | e <;>
    rcases hs : p.2.planned_start_date with _ | s <;>
    simp only [he, hs] at hfp
  · exact Option.noConfusion hfp
  · exact Option.noConfusion hfp
  · exact Option.noConfusion hfp
  · by_cases hgt : e > s
    · rw [if_pos hgt] at hfp
      exact ⟨e, s, rfl, rfl, hgt, (Option.some.inj hfp).symm⟩
    · rw [if_neg hgt] at hfp
      exact Option.noConfusion hfp

/-- Deadline conflicts carry the `project_deadline_violation` type. -/
theorem deadline_conflict_type (tasks : List CTask) (c : SchedulingConflict)
    (hc : c ∈ tasks.filterMap (fun t =>
      match t.planned_end_date, t.project_end_date with
      | some e, some pe =>
          if e > pe then
            some { conflict_type := "project_deadline_violation"
                   task_ids := [t.id]
                   severity := "high" }
          else none
      | _, _ => none)) :
    c.conflict_type = "project_deadline_violation" := by
  obtain ⟨t, _, hft⟩ := List.mem_filterMap.mp hc
  rcases he : t.planned_end_date with _ | e <;>
    rcases hpe : t.project_end_date with _ | pe <;>
    simp only [he, hpe] at hft
  · exact Option.noConfusion hft
  · exact Option.noConfusion hft
  · exact Option.noConfusion hft
  · by_cases hgt : e > pe
    · rw [if_pos hgt] at hft
      rw [← Option.some.inj hft]
    · rw [if_neg hgt] at hft
      exact Option.noConfusion hft

/-- Overallocation conflicts carry the `resource_overallocation` type. -/
theorem overallocation_conflict_type (tasks : List CTask)
    (c : SchedulingConflict) (hc : c ∈ detectResourceConflicts tasks) :
    c.conflict_type = "resource_overallocation" := by
  unfold detectResourceConflicts at hc
  obtain ⟨p, _, hfp⟩ := List.mem_filterMap.mp hc
  by_cases hgt : p.2 > 160
  · rw [if_pos hgt] at hfp
    rw [← Option.some.inj hfp]
  · rw [if_neg hgt] at hfp
    exact Option.noConfusion hfp

/-- Dependency-violation conflicts carry the `dependency_violation` type. -/
theorem dependency_conflict_type (tasks : List CTask)
    (c : SchedulingConflict) (hc : c ∈ detectDependencyConflicts tasks) :
    c.conflict_type = "dependency_violation" := by
  unfold detectDependencyConflicts at hc
  obtain ⟨t, _, hct⟩ := List.mem_flatMap.mp hc
  obtain ⟨predId, _, hfp⟩ := List.mem_filterMap.mp hct
  rcases hfind : tasks.find? (fun u => u.id == predId) with _ | pred <;>
    simp only [hfind] at hfp
  · exact Option.noConfusion hfp
  · rcases he : pred.planned_end_date with _ | e <;>
      rcases hs : t.planned_start_date with _ | s <;>
      simp only [he, hs] at hfp
    · exact Option.noConfusion hfp
    · exact Option.noConfusion hfp
    · exact Option.noConfusion hfp
    · by_cases hgt : e > s
      · rw [if_pos hgt] at hfp
        rw [← Option.some.inj hfp]
      · rw [if_neg hgt] at hfp
        exact Option.noConfusion hfp

/-- Capacity-violation conflicts carry the `capacity_violation` type. -/
theorem capacity_conflict_type (tasks : List CTask) (c : SchedulingConflict)
    (hc : c ∈ detectCapacityConflicts tasks) :
    c.conflict_type = "capacity_violation" := by
  unfold detectCapacityConflicts at hc
  obtain ⟨t, _, hft⟩ := List.mem_filterMap.mp hc
  rcases hd : t.planned_duration_days with _ | d <;>
    rcases hh : t.estimated_hours with _ | h <;>
    simp only [hd, hh] at hft
  · exact Option.noConfusion hft
  · exact Option.noConfusion hft
  · exact Option.noConfusion hft
  · by_cases hz : d = 0 ∨ h = 0
    · rw [if_pos hz] at hft
      exact Option.noConfusion hft
    · rw [if_neg hz] at hft
      by_cases hgt : h > (d : ℚ) * 8
      · rw [if_pos hgt] at hft
        rw [← Option.some.inj hft]
      · rw [if_neg hgt] at hft
        exact Option.noConfusion hft

/-- C6 (amended): `_detect_date_conflicts` compares only tasks that are
adjacent in start-date order within an assignee's bucket, so every reported
`resource_overlap` conflict is sound — it names two tasks of the input that
share an assignee and whose windows overlap, with severity `medium` exactly
when the overlap `end₁ − start₂` is at most 3 days and `high` otherwise —
but non-adjacent overlapping pairs go unreported.  On Scenario 2 exactly
one `resource_overlap` conflict is returned (5-day overlap, severity
`high`), and `resolve_conflicts(auto)` shifts B's start to 2024-01-11 and
its end by the same 6-day delta to 2024-01-21. -/
theorem c6_overlap_detection_sound :
    (∀ (tasks : List CTask) (c : SchedulingConflict),
      c ∈ detectProjectConflicts tasks → c.conflict_type = "resource_overlap" →
      ∃ t1 t2, t1 ∈ tasks ∧ t2 ∈ tasks ∧
        t1.assigned_to ≠ none ∧ t1.assigned_to = t2.assigned_to ∧
        ∃ e s, t1.planned_end_date = some e ∧ t2.planned_start_date = some s ∧
          e > s ∧ c.task_ids = [t1.id, t2.id] ∧
          c.severity = (if e - s ≤ 3 then "medium" else "high")) ∧
    detectProjectConflicts [scn2TaskA, scn2TaskB] =
      [{ conflict_type := "resource_overlap"
         task_ids := ["A", "B"]
         severity := "high" }] ∧
    (resolveConflicts (detectProjectConflicts [scn2TaskA, scn2TaskB]) "auto"
        [scn2TaskA, scn2TaskB]).1.conflicts_resolved = 1 ∧
    (resolveConflicts (detectProjectConflicts [scn2TaskA, scn2TaskB]) "auto"
        [scn2TaskA, scn2TaskB]).2 =
      [scn2TaskA, ⟨"B", "B", some "R", some 11, some 21, none, none, [], none⟩] := by
  refine ⟨?_, by decide, by decide, by decide⟩
  intro tasks c hc htype
  unfold detectProjectConflicts at hc
  by_cases hne : tasks.isEmpty
  · rw [if_pos hne] at hc; cases hc
  rw [if_neg hne] at hc
  rcases List.mem_append.mp hc with hc' | hcap
  swap
  · exact absurd (htype ▸ capacity_conflict_type tasks c hcap) (by decide)
  rcases List.mem_append.mp hc' with hc'' | hdep
  swap
  · exact absurd (htype ▸ dependency_conflict_type tasks c hdep) (by decide)
  rcases List.mem_append.mp hc'' with hdate | hres
  swap
  · exact absurd (htype ▸ overallocation_conflict_type tasks c hres) (by decide)
  unfold detectDateConflicts at hdate
  rcases List.mem_append.mp hdate with hover | hdl
  swap
  · exact absurd (htype ▸ deadline_conflict_type tasks c hdl) (by decide)
  obtain ⟨g, hg, hcg⟩ := List.mem_flatMap.mp hover
  obtain ⟨t1, t2, ht1, ht2, e, s, he, hs, hgt, hceq⟩ :=
    adjacentOverlapConflicts_sound _ c hcg
  have ht1' := (sortByStart_mem _ _).mp ht1
  have ht2' := (sortByStart_mem _ _).mp ht2
  have hinv1 := buildResourceGroups_mem tasks [] g hg t1 ht1'
  have hinv2 := buildResourceGroups_mem tasks [] g hg t2 ht2'
  obtain ⟨hmem1, hass1⟩ :
      t1 ∈ tasks ∧ t1.assigned_to = some g.1 := by
    rcases hinv1 with ⟨q, hq, _⟩ | h
    · exact absurd hq (List.not_mem_nil q)
    · exact h
  obtain ⟨hmem2, hass2⟩ :
      t2 ∈ tasks ∧ t2.assigned_to = some g.1 := by
    rcases hinv2 with ⟨q, hq, _⟩ | h
    · exact absurd hq (List.not_mem_nil q)
    · exact h
  refine ⟨t1, t2, hmem1, hmem2, by rw [hass1]; exact Option.some_ne_none _,
    hass1.trans hass2.symm, e, s, he, hs, hgt, ?_, ?_⟩
  · rw [hceq]
  · rw [hceq]

/-- Witness for the amended C6 theorem: soundness applied to the single
conflict detected on Scenario 2. -/
theorem c6_overlap_detection_sound_witness :
    ∃ t1 t2, t1 ∈ [scn2TaskA, scn2TaskB] ∧ t2 ∈ [scn2TaskA, scn2TaskB] ∧
      t1.assigned_to ≠ none ∧ t1.assigned_to = t2.assigned_to ∧
      ∃ e s, t1.planned_end_date = some e ∧ t2.planned_start_date = some s ∧
        e > s ∧
        ({ conflict_type := "resource_overlap"
           task_ids := ["A", "B"]
           severity := "high" } : SchedulingConflict).task_ids = [t1.id, t2.id] ∧
        ({ conflict_type := "resource_overlap"
           task_ids := ["A", "B"]
           severity := "high" } : SchedulingConflict).severity =
          (if e - s ≤ 3 then "medium" else "high") :=
  c6_overlap_detection_sound.1 [scn2TaskA, scn2TaskB]
    { conflict_type := "resource_overlap"
      task_ids := ["A", "B"]
      severity := "high" }
    (by decide) rfl

/-- C6 (counterexample): three tasks of one assignee where X1 spans
2024-01-01→2024-01-20, X2 spans 2024-01-02→2024-01-03 and X3 spans
2024-01-10→2024-01-12.  X1 and X3 overlap (X1 ends after X3 starts), but
after sorting by start date they are not adjacent, so `detect_conflicts`
reports no conflict for the pair — refuting "every pair of tasks sharing an
assignee with overlapping windows is reported". -/
theorem c6_nonadjacent_pair_unreported :
    c6TaskX1.assigned_to = c6TaskX3.assigned_to ∧
    c6TaskX1.assigned_to ≠ none ∧
    c6TaskX1.planned_end_date = some 20 ∧
    c6TaskX3.planned_start_date = some 10 ∧ (10 : Int) < 20 ∧
    ¬ ∃ c ∈ detectProjectConflicts [c6TaskX1, c6TaskX2, c6TaskX3],
        c.conflict_type = "resource_overlap" ∧
        "X1" ∈ c.task_ids ∧ "X3" ∈ c.task_ids := by
  decide

/-- One unfolding step of the path-length recursion: a node that is not
memoized and has at least one successor propagates an error raised while
measuring its first successor. -/
theorem calcPathLength_step_error (adj : List (String × List String))
    (fuel : Nat) (node : String) (memo : List (String × Int)) (succ : String)
    (rest : List String) (msg : String)
    (h1 : memo.find? (fun p => p.1 == node) = none)
    (h2 : adjGet adj node = succ :: rest)
    (h3 : calcPathLength adj fuel succ memo = .error msg) :
    calcPathLength adj (fuel + 1) node memo = .error msg := by
  unfold calcPathLength
  rw [h1, h2]
  simp only [List.cons_ne_nil, if_neg, reduceCtorEq]
  unfold calcPathLengthList
  rw [h3]
  rfl

/-- On the cyclic adjacency A→B→C→A, the memoization never completes and
`calculate_path_length` exhausts any recursion budget from each of the
three nodes — the model of the `RecursionError` Python raises. -/
theorem cycAdj_calc_error : ∀ fuel : Nat,
    calcPathLength cycAdj fuel "A" [] = .error "maximum recursion depth exceeded" ∧
    calcPathLength cycAdj fuel "B" [] = .error "maximum recursion depth exceeded" ∧
    calcPathLength cycAdj fuel "C" [] = .error "maximum recursion depth exceeded" := by
  intro fuel
  induction fuel with
  | zero => exact ⟨rfl, rfl, rfl⟩
  | succ n ih =>
      exact ⟨calcPathLength_step_error cycAdj n "A" [] "B" [] _ rfl rfl ih.2.1,
        calcPathLength_step_error cycAdj n "B" [] "C" [] _ rfl rfl ih.2.2,
        calcPathLength_step_error cycAdj n "C" [] "A" [] _ rfl rfl ih.1⟩

/-- On the three-task cycle, `_build_dependency_graph` finds the cycle in
its local DFS but then dies in `_find_longest_path` with a
`RecursionError`. -/
theorem cyc_buildDependencyGraph_error :
    buildDependencyGraph cycTasks cycDeps =
      .error "maximum recursion depth exceeded" := by
  unfold buildDependencyGraph
  rw [show buildAdjList cycDeps = cycAdj from rfl]
  dsimp only
  rw [show detectCyclesFromAdjList cycAdj =
      .ok [["A", "B", "C", "A"]] from rfl]
  rw [show cycTasks.map (fun t => t.id) = ["A", "B", "C"] from rfl]
  unfold findLongestPath longestPathScan
  rw [(cycAdj_calc_error recursionLimit).1]
  rfl

/-- C1: on the dependency cycle A→B→C→A, `validate_project_dependencies`
does return `is_valid = false`, but only because `_find_longest_path`
recurses forever on the cycle and the blanket `except` converts the
`RecursionError` into a failure result: `circular_references` is empty and
the single error is the caught exception message, not a reported cycle.
(`_detect_cycles` itself passes an edge-less adjacency to the DFS, so it
can never find a cycle.) -/
theorem c1_cycle_crash_not_reported :
    (validateProjectDependencies cycTasks cycDeps).is_valid = false ∧
    (validateProjectDependencies cycTasks cycDeps).circular_references = [] ∧
    (validateProjectDependencies cycTasks cycDeps).errors =
      ["Validation failed: maximum recursion depth exceeded"] := by
  have hbody : validateProjectDependenciesBody cycTasks cycDeps =
      .error "maximum recursion depth exceeded" := by
    unfold validateProjectDependenciesBody
    rw [cyc_buildDependencyGraph_error]
    rfl
  unfold validateProjectDependencies
  rw [hbody]
  exact ⟨rfl, rfl, rfl⟩

/-- A task found by id carries that id. -/
theorem storeGet_id (s : CStore) (tid : String) (t : CTask)
    (h : storeGet s tid = some t) : t.id = tid := by
  have := List.find?_some h
  simpa using this

/-- Unfolding the lookup over a cons cell. -/
theorem storeGet_cons (a : CTask) (l : CStore) (x : String) :
    storeGet (a :: l) x =
      (if (a.id == x) = true then some a else storeGet l x) := by
  by_cases h : (a.id == x) = true
  · rw [if_pos h]
    unfold storeGet
    rw [List.find?_cons, h]
  · rw [if_neg h]
    unfold storeGet
    rw [List.find?_cons, Bool.not_eq_true _ |>.mp h]

/-- Updating one id leaves lookups of every other id unchanged. -/
theorem storeGet_storeSet_ne (s : CStore) (tid x : String) (t' : CTask)
    (hid : t'.id = tid) (hx : x ≠ tid) :
    storeGet (storeSet s tid t') x = storeGet s x := by
  induction s with
  | nil => rfl
  | cons a l ih =>
      unfold storeSet
      rw [List.map_cons]
      by_cases ha : (a.id == tid) = true
      · rw [if_pos ha, storeGet_cons, storeGet_cons]
        have h1 : (t'.id == x) = false := by
          simp only [beq_eq_false_iff_ne, ne_eq, hid]
          exact fun hh => hx hh.symm
        have h2 : (a.id == x) = false := by
          have haid : a.id = tid := by simpa using ha
          simp only [beq_eq_false_iff_ne, ne_eq, haid]
          exact fun hh => hx hh.symm
        rw [h1, h2]
        simp only [Bool.false_eq_true, if_false]
        exact ih
      · rw [if_neg ha, storeGet_cons, storeGet_cons]
        by_cases hax : (a.id == x) = true
        · rw [if_pos hax, if_pos hax]
        · rw [if_neg hax, if_neg hax]
          exact ih

/-- Updating an id that is present makes its lookup return the update. -/
theorem storeGet_storeSet_self (s : CStore) (tid : String) (t t' : CTask)
    (hget : storeGet s tid = some t) (hid : t'.id = tid) :
    storeGet (storeSet s tid t') tid = some t' := by
  induction s with
  | nil => exact Option.noConfusion hget
  | cons a l ih =>
      unfold storeSet
      rw [List.map_cons]
      by_cases ha : (a.id == tid) = true
      · rw [if_pos ha, storeGet_cons]
        have h1 : (t'.id == tid) = true := by simpa using hid
        rw [h1]
        simp
      · rw [if_neg ha, storeGet_cons]
        rw [if_neg ha]
        rw [storeGet_cons, if_neg ha] at hget
        exact ih hget

/-- Inversion of a successful resource-overlap decision. -/
theorem resolveResourceOverlapCore_inv (c : SchedulingConflict)
    (get : String → Option CTask) (r : Resolution) (tid : String) (t' : CTask)
    (h : resolveResourceOverlapCore c get = some (r, tid, t')) :
    ∃ a b task1 task2 e1 s2,
      c.task_ids = [a, b] ∧ get a = some task1 ∧ get b = some task2 ∧
      task1.planned_end_date = some e1 ∧ task2.planned_start_date = some s2 ∧
      e1 - s2 + 1 > 0 ∧ tid = b ∧
      t' = { task2 with
        planned_start_date := some (s2 + (e1 - s2 + 1))
        planned_end_date := task2.planned_end_date.map (· + (e1 - s2 + 1)) } := by
  unfold resolveResourceOverlapCore at h
  rcases hids : c.task_ids with _ | ⟨a, _ | ⟨b, _ | ⟨z, zs⟩⟩⟩ <;>
    simp only [hids] at h
  · exact Option.noConfusion h
  · exact Option.noConfusion h
  case cons.cons.nil =>
    rcases hga : get a with _ | task1 <;> simp only [hga] at h
    · exact Option.noConfusion h
    rcases hgb : get b with _ | task2 <;> simp only [hgb] at h
    · exact Option.noConfusion h
    rcases he1 : task1.planned_end_date with _ | e1 <;>
      rcases hs2 : task2.planned_start_date with _ | s2 <;>
      simp only [he1, hs2] at h
    · exact Option.noConfusion h
    · exact Option.noConfusion h
    · exact Option.noConfusion h
    by_cases hd : e1 - s2 + 1 > 0
    · rw [if_pos hd] at h
      have := Option.some.inj h
      refine ⟨a, b, task1, task2, e1, s2, rfl, hga, hgb, he1, hs2, hd, ?_, ?_⟩
      · exact (congrArg (fun p => p.2.1) this).symm
      · exact (congrArg (fun p => p.2.2) this).symm
    · rw [if_neg hd] at h
      exact Option.noConfusion h
  · exact Option.noConfusion h

/-- Inversion of a successful dependency-violation decision. -/
theorem resolveDependencyViolationCore_inv (c : SchedulingConflict)
    (get : String → Option CTask) (r : Resolution) (tid : String) (t' : CTask)
    (h : resolveDependencyViolationCore c get = some (r, tid, t')) :
    ∃ a b task1 task2 e1 s2,
      c.task_ids = [a, b] ∧ get a = some task1 ∧ get b = some task2 ∧
      task1.planned_end_date = some e1 ∧ task2.planned_start_date = some s2 ∧
      e1 - s2 + 1 > 0 ∧ tid = b ∧
      t' = { task2 with
        planned_start_date := some (s2 + (e1 - s2 + 1))
        planned_end_date := task2.planned_end_date.map (· + (e1 - s2 + 1)) } := by
  unfold resolveDependencyViolationCore at h
  rcases hids : c.task_ids with _ | ⟨a, _ | ⟨b, _ | ⟨z, zs⟩⟩⟩ <;>
    simp only [hids] at h
  · exact Option.noConfusion h
  · exact Option.noConfusion h
  case cons.cons.nil =>
    rcases hga : get a with _ | task1 <;> simp only [hga] at h
    · exact Option.noConfusion h
    rcases hgb : get b with _ | task2 <;> simp only [hgb] at h
    · exact Option.noConfusion h
    rcases he1 : task1.planned_end_date with _ | e1 <;>
      rcases hs2 : task2.planned_start_date with _ | s2 <;>
      simp only [he1, hs2] at h
    · exact Option.noConfusion h
    · exact Option.noConfusion h
    · exact Option.noConfusion h
    by_cases hd : e1 - s2 + 1 > 0
    · rw [if_pos hd] at h
      have := Option.some.inj h
      refine ⟨a, b, task1, task2, e1, s2, rfl, hga, hgb, he1, hs2, hd, ?_, ?_⟩
      · exact (congrArg (fun p => p.2.1) this).symm
      · exact (congrArg (fun p => p.2.2) this).symm
    · rw [if_neg hd] at h
      exact Option.noConfusion h
  · exact Option.noConfusion h

/-- Inversion of a successful capacity-violation decision. -/
theorem resolveCapacityViolationCore_inv (c : SchedulingConflict)
    (get : String → Option CTask) (r : Resolution) (tid : String) (t' : CTask)
    (h : resolveCapacityViolationCore c get = some (r, tid, t')) :
    ∃ a task h0 d,
      c.task_ids = [a] ∧ get a = some task ∧
      task.estimated_hours = some h0 ∧ task.planned_duration_days = some d ∧
      ¬(h0 = 0 ∨ d = 0) ∧ qTrunc (h0 / 8) + 1 > d ∧ tid = a ∧
      t' = { task with
        planned_duration_days := some (qTrunc (h0 / 8) + 1)
        planned_end_date :=
          match task.planned_start_date with
          | some st => some (st + (qTrunc (h0 / 8) + 1))
          | none => task.planned_end_date } := by
  unfold resolveCapacityViolationCore at h
  rcases hids : c.task_ids with _ | ⟨a, _ | ⟨z, zs⟩⟩ <;> simp only [hids] at h
  · exact Option.noConfusion h
  case cons.nil =>
    rcases hga : get a with _ | task <;> simp only [hga] at h
    · exact Option.noConfusion h
    rcases hh0 : task.estimated_hours with _ | h0 <;>
      rcases hdur : task.planned_duration_days with _ | d <;>
      simp only [hh0, hdur] at h
    · exact Option.noConfusion h
    · exact Option.noConfusion h
    · exact Option.noConfusion h
    by_cases hz : h0 = 0 ∨ d = 0
    · rw [if_pos hz] at h
      exact Option.noConfusion h
    rw [if_neg hz] at h
    by_cases hreq : qTrunc (h0 / 8) + 1 > d
    · rw [if_pos hreq] at h
      have := Option.some.inj h
      refine ⟨a, task, h0, d, rfl, hga, hh0, hdur, hz, hreq, ?_, ?_⟩
      · exact (congrArg (fun p => p.2.1) this).symm
      · rw [hh0]
        exact (congrArg (fun p => p.2.2) this).symm
    · rw [if_neg hreq] at h
      exact Option.noConfusion h
  · exact Option.noConfusion h

/-- The overlap decision only reads the ids named by the conflict. -/
theorem resolveResourceOverlapCore_congr (c : SchedulingConflict)
    (get get' : String → Option CTask)
    (hagree : ∀ x ∈ c.task_ids, get x = get' x) :
    resolveResourceOverlapCore c get = resolveResourceOverlapCore c get' := by
  unfold resolveResourceOverlapCore
  rcases hids : c.task_ids with _ | ⟨a, _ | ⟨b, _ | ⟨z, zs⟩⟩⟩
  · rfl
  · rfl
  · dsimp only
    rw [hagree a (by rw [hids]; exact List.mem_cons_self _ _),
      hagree b (by rw [hids]; exact List.mem_cons_of_mem _ (List.mem_cons_self _ _))]
  · rfl

/-- The dependency decision only reads the ids named by the conflict. -/
theorem resolveDependencyViolationCore_congr (c : SchedulingConflict)
    (get get' : String → Option CTask)
    (hagree : ∀ x ∈ c.task_ids, get x = get' x) :
    resolveDependencyViolationCore c get =
      resolveDependencyViolationCore c get' := by
  unfold resolveDependencyViolationCore
  rcases hids : c.task_ids with _ | ⟨a, _ | ⟨b, _ | ⟨z, zs⟩⟩⟩
  · rfl
  · rfl
  · dsimp only
    rw [hagree a (by rw [hids]; exact List.mem_cons_self _ _),
      hagree b (by rw [hids]; exact List.mem_cons_of_mem _ (List.mem_cons_self _ _))]
  · rfl

/-- The capacity decision only reads the id named by the conflict. -/
theorem resolveCapacityViolationCore_congr (c : SchedulingConflict)
    (get get' : String → Option CTask)
    (hagree : ∀ x ∈ c.task_ids, get x = get' x) :
    resolveCapacityViolationCore c get =
      resolveCapacityViolationCore c get' := by
  unfold resolveCapacityViolationCore
  rcases hids : c.task_ids with _ | ⟨a, _ | ⟨z, zs⟩⟩
  · rfl
  · dsimp only
    rw [hagree a (by rw [hids]; exact List.mem_cons_self _ _)]
  · rfl

/-- The dispatch only reads the ids named by the conflict. -/
theorem resolveSingleCore_congr (c : SchedulingConflict) (strategy : String)
    (get get' : String → Option CTask)
    (hagree : ∀ x ∈ c.task_ids, get x = get' x) :
    resolveSingleConflictCore c strategy get =
      resolveSingleConflictCore c strategy get' := by
  unfold resolveSingleConflictCore
  split_ifs
  all_goals first
    | exact resolveResourceOverlapCore_congr c get get' hagree
    | exact resolveDependencyViolationCore_congr c get get' hagree
    | exact resolveCapacityViolationCore_congr c get get' hagree
    | rfl

/-- A successful decision targets an id named by the conflict and keeps
the task's id. -/
theorem resolveSingleCore_some_spec (c : SchedulingConflict)
    (strategy : String) (get : String → Option CTask) (r : Resolution)
    (tid : String) (t' : CTask)
    (h : resolveSingleConflictCore c strategy get = some (r, tid, t')) :
    tid ∈ c.task_ids ∧ ∃ t, get tid = some t ∧ t'.id = t.id := by
  unfold resolveSingleConflictCore at h
  split_ifs at h
  · obtain ⟨a, b, task1, task2, e1, s2, hids, hga, hgb, he1, hs2, hd, htid, ht'⟩ :=
      resolveResourceOverlapCore_inv c get r tid t' h
    subst htid
    exact ⟨by rw [hids]; exact List.mem_cons_of_mem _ (List.mem_cons_self _ _),
      task2, hgb, by rw [ht']⟩
  · obtain ⟨a, b, task1, task2, e1, s2, hids, hga, hgb, he1, hs2, hd, htid, ht'⟩ :=
      resolveDependencyViolationCore_inv c get r tid t' h
    subst htid
    exact ⟨by rw [hids]; exact List.mem_cons_of_mem _ (List.mem_cons_self _ _),
      task2, hgb, by rw [ht']⟩
  · obtain ⟨a, task, h0, d, hids, hga, hh0, hdur, hz, hreq, htid, ht'⟩ :=
      resolveCapacityViolationCore_inv c get r tid t' h
    subst htid
    exact ⟨by rw [hids]; exact List.mem_cons_self _ _, task, hga, by rw [ht']⟩

/-- Resolving a conflict leaves every task outside its id list unchanged. -/
theorem resolveSingle_frame (c : SchedulingConflict) (strategy : String)
    (s : CStore) (x : String) (hx : x ∉ c.task_ids) :
    storeGet ((resolveSingleConflict c strategy s).2) x = storeGet s x := by
  unfold resolveSingleConflict
  rcases hcore : resolveSingleConflictCore c strategy (storeGet s) with
    _ | ⟨r, tid, t'⟩
  · rfl
  · obtain ⟨htid, t, hget, hid⟩ :=
      resolveSingleCore_some_spec c strategy _ r tid t' hcore
    have hidt : t.id = tid := storeGet_id s tid t hget
    exact storeGet_storeSet_ne s tid x t' (hid.trans hidt)
      (fun hh => hx (hh ▸ htid))

/-- A conflict that fails to resolve leaves the store unchanged. -/
theorem resolveSingle_none_store (c : SchedulingConflict) (strategy : String)
    (s : CStore) (h : (resolveSingleConflict c strategy s).1 = none) :
    (resolveSingleConflict c strategy s).2 = s := by
  unfold resolveSingleConflict at h ⊢
  rcases hcore : resolveSingleConflictCore c strategy (storeGet s) with
    _ | ⟨r, tid, t'⟩
  · rfl
  · rw [hcore] at h
    exact Option.noConfusion h

/-- Immediately re-resolving a single conflict (with no duplicate ids in
its own id list) does nothing: the first pass either failed — leaving the
store unchanged, so it fails again — or succeeded, after which the shifted
dates / extended duration make the guard fail. -/
theorem resolveSingle_auto_post_none (c : SchedulingConflict) (s : CStore)
    (hnodup : c.task_ids.Nodup) :
    (resolveSingleConflict c "auto" ((resolveSingleConflict c "auto" s).2)).1 = none := by
  rcases hcore : resolveSingleConflictCore c "auto" (storeGet s) with
    _ | ⟨r, tid, t'⟩
  · have hs2 : (resolveSingleConflict c "auto" s).2 = s := by
      unfold resolveSingleConflict
      rw [hcore]
      rfl
    rw [hs2]
    unfold resolveSingleConflict
    rw [hcore]
    rfl
  · have hs2 : (resolveSingleConflict c "auto" s).2 = storeSet s tid t' := by
      unfold resolveSingleConflict
      rw [hcore]
      rfl
    rw [hs2]
    unfold resolveSingleConflict
    suffices hnone : resolveSingleConflictCore c "auto"
        (storeGet (storeSet s tid t')) = none by
      rw [hnone]
      rfl
    unfold resolveSingleConflictCore at hcore ⊢
    split_ifs at hcore ⊢ with h1 h2 h3
    · obtain ⟨a, b, task1, task2, e1, s2, hids, hga, hgb, he1, hs2', hd, htid, ht'⟩ :=
        resolveResourceOverlapCore_inv c _ r tid t' hcore
      rw [htid]
      have hab : a ≠ b := by
        rw [hids] at hnodup
        simpa using hnodup
      have hid' : t'.id = b := by
        rw [ht']
        exact storeGet_id s b task2 hgb
      have hga' : storeGet (storeSet s b t') a = some task1 := by
        rw [storeGet_storeSet_ne s b a t' hid' hab]
        exact hga
      have hgb' : storeGet (storeSet s b t') b = some t' :=
        storeGet_storeSet_self s b task2 t' hgb hid'
      have hts' : t'.planned_start_date = some (s2 + (e1 - s2 + 1)) := by
        rw [ht']
      unfold resolveResourceOverlapCore
      simp only [hids, hga', hgb', he1, hts']
      rw [if_neg (by omega : ¬e1 - (s2 + (e1 - s2 + 1)) + 1 > 0)]
    · obtain ⟨a, b, task1, task2, e1, s2, hids, hga, hgb, he1, hs2', hd, htid, ht'⟩ :=
        resolveDependencyViolationCore_inv c _ r tid t' hcore
      rw [htid]
      have hab : a ≠ b := by
        rw [hids] at hnodup
        simpa using hnodup
      have hid' : t'.id = b := by
        rw [ht']
        exact storeGet_id s b task2 hgb
      have hga' : storeGet (storeSet s b t') a = some task1 := by
        rw [storeGet_storeSet_ne s b a t' hid' hab]
        exact hga
      have hgb' : storeGet (storeSet s b t') b = some t' :=
        storeGet_storeSet_self s b task2 t' hgb hid'
      have hts' : t'.planned_start_date = some (s2 + (e1 - s2 + 1)) := by
        rw [ht']
      unfold resolveDependencyViolationCore
      simp only [hids, hga', hgb', he1, hts']
      rw [if_neg (by omega : ¬e1 - (s2 + (e1 - s2 + 1)) + 1 > 0)]
    · obtain ⟨a, task, h0, d, hids, hga, hh0, hdur, hz, hreq, htid, ht'⟩ :=
        resolveCapacityViolationCore_inv c _ r tid t' hcore
      rw [htid]
      have hid' : t'.id = a := by
        rw [ht']
        exact storeGet_id s a task hga
      have hga' : storeGet (storeSet s a t') a = some t' :=
        storeGet_storeSet_self s a task t' hga hid'
      have hth : t'.estimated_hours = some h0 := by
        rw [ht']
        exact hh0
      have htd : t'.planned_duration_days = some (qTrunc (h0 / 8) + 1) := by
        rw [ht']
      unfold resolveCapacityViolationCore
      simp only [hids, hga', hth, htd]
      by_cases hz2 : h0 = 0 ∨ qTrunc (h0 / 8) + 1 = 0
      · rw [if_pos hz2]
      · rw [if_neg hz2, if_neg (lt_irrefl _)]

/-- Core-level restatement: after a successful or failed `auto` pass on a
conflict, the decision recomputed from the committed store is `none`. -/
theorem resolveSingleCore_post_none (c : SchedulingConflict) (s : CStore)
    (hnodup : c.task_ids.Nodup) :
    resolveSingleConflictCore c "auto"
      (storeGet ((resolveSingleConflict c "auto" s).2)) = none := by
  have post := resolveSingle_auto_post_none c s hnodup
  generalize hs1 : (resolveSingleConflict c "auto" s).2 = s1 at post ⊢
  unfold resolveSingleConflict at post
  rcases h : resolveSingleConflictCore c "auto" (storeGet s1) with _ | ⟨r, tid, t'⟩
  · rfl
  · rw [h] at post
    exact Option.noConfusion post

/-- The final store of the loop on `c :: cs` is the final store of the loop
on `cs` started from the store committed by `c`. -/
theorem resolveLoop_cons_store (strategy : String) (c : SchedulingConflict)
    (cs : List SchedulingConflict) (s : CStore) :
    (resolveLoop strategy (c :: cs) s).2.2 =
      (resolveLoop strategy cs ((resolveSingleConflict c strategy s).2)).2.2 := by
  rw [resolveLoop_cons]
  rcases h : resolveSingleConflict c strategy s with ⟨o, s'⟩
  rcases o with _ | r <;> rfl

/-- The loop leaves every task outside all conflicts' id lists unchanged. -/
theorem resolveLoop_store_frame (strategy : String)
    (cs : List SchedulingConflict) :
    ∀ (s : CStore) (x : String), x ∉ cs.flatMap (fun c => c.task_ids) →
      storeGet ((resolveLoop strategy cs s).2.2) x = storeGet s x := by
  induction cs with
  | nil => intro s x _; rfl
  | cons c cs ih =>
      intro s x hx
      simp only [List.flatMap_cons, List.mem_append] at hx
      push_neg at hx
      rw [resolveLoop_cons_store, ih _ x hx.2,
        resolveSingle_frame c strategy s x hx.1]

/-- When the conflicts' id lists are pairwise disjoint, running the loop
again from any store that agrees with the first pass's final store on all
mentioned ids applies no resolution. -/
theorem resolveLoop_auto_twice_nil (cs : List SchedulingConflict) :
    ∀ (s sg : CStore),
      (cs.flatMap fun c => c.task_ids).Nodup →
      (∀ x ∈ cs.flatMap fun c => c.task_ids,
        storeGet sg x = storeGet ((resolveLoop "auto" cs s).2.2) x) →
      (resolveLoop "auto" cs sg).1 = [] := by
  induction cs with
  | nil => intro s sg _ _; rfl
  | cons c cs ih =>
      intro s sg hnodup hagree
      simp only [List.flatMap_cons] at hnodup hagree
      have hn1 : c.task_ids.Nodup := hnodup.of_append_left
      have hn2 : (cs.flatMap fun c => c.task_ids).Nodup := hnodup.of_append_right
      have hdisj := List.disjoint_of_nodup_append hnodup
      have hcx : ∀ x ∈ c.task_ids,
          storeGet sg x = storeGet ((resolveSingleConflict c "auto" s).2) x := by
        intro x hx
        have hax := hagree x (List.mem_append.mpr (Or.inl hx))
        rw [resolveLoop_cons_store] at hax
        rw [hax, resolveLoop_store_frame "auto" cs _ x (fun hmem => hdisj hx hmem)]
      have hnone1 : resolveSingleConflictCore c "auto"
          (storeGet ((resolveSingleConflict c "auto" s).2)) = none :=
        resolveSingleCore_post_none c s hn1
      have hnone2 : resolveSingleConflictCore c "auto" (storeGet sg) = none := by
        rw [resolveSingleCore_congr c "auto" (storeGet sg)
          (storeGet ((resolveSingleConflict c "auto" s).2)) hcx]
        exact hnone1
      have hh : resolveSingleConflict c "auto" sg = (none, sg) := by
        unfold resolveSingleConflict
        rw [hnone2]
        rfl
      rw [resolveLoop_cons, hh]
      dsimp only
      refine ih ((resolveSingleConflict c "auto" s).2) sg hn2 ?_
      intro x hx
      have hax := hagree x (List.mem_append.mpr (Or.inr hx))
      rw [resolveLoop_cons_store] at hax
      exact hax

/-- Witness conflict list for idempotence: a single overlap conflict, so
all id lists are trivially pairwise disjoint. -/
def c8wConflicts : List SchedulingConflict :=
  [⟨"resource_overlap", ["A", "B"], "high"⟩]

/-- C8 (counterexample): with the store `[Y1, Y2]` and two conflicts whose
id lists share tasks (an overlap on [Y1, Y2] and a dependency violation on
[Y2, Y1]), the first `auto` pass delays Y2 past Y1's end and then delays Y1
past Y2's new end; the second pass finds both violations recreated and
resolves them again, so `conflicts_resolved = 2 ≠ 0` and resolution is not
idempotent in general. -/
theorem c8_shared_task_not_idempotent :
    ((resolveConflicts c8Conflicts "auto"
        ((resolveConflicts c8Conflicts "auto" [c8TaskY1, c8TaskY2]).2)).1).conflicts_resolved
      = 2 := by
  decide

/-- C8: `resolve_conflicts` is idempotent provided the conflicts name
pairwise-disjoint task id lists: a second `auto` pass over the store
committed by the first pass applies no resolution, so
`conflicts_resolved = 0`. -/
theorem c8_idempotent_when_disjoint (conflicts : List SchedulingConflict)
    (s : CStore)
    (hnodup : (conflicts.flatMap fun c => c.task_ids).Nodup) :
    ((resolveConflicts conflicts "auto"
        ((resolveConflicts conflicts "auto" s).2)).1).conflicts_resolved = 0 := by
  unfold resolveConflicts
  dsimp only
  rw [resolveLoop_auto_twice_nil conflicts s
    ((resolveLoop "auto" conflicts s).2.2) hnodup (fun x _ => rfl)]
  rfl

/-- C8 witness: one overlap conflict on disjoint ids A, B over the
Scenario 2 store resolves once and is then idempotent. -/
theorem c8_idempotent_when_disjoint_witness :
    (c8wConflicts.flatMap fun c => c.task_ids).Nodup ∧
      ((resolveConflicts c8wConflicts "auto"
          ((resolveConflicts c8wConflicts "auto"
            [scn2TaskA, scn2TaskB]).2)).1).conflicts_resolved = 0 :=
  ⟨by decide, c8_idempotent_when_disjoint c8wConflicts [scn2TaskA, scn2TaskB]
    (by decide)⟩

end PM
